import Mathlib

/-!
Verification development for the combined Excel-to-Pinecone pipeline
(`combined_excel_to_pinecone.py`): a shallow embedding of the
employee-centric aggregation engine, the document formatter and the
secure upload step, together with theorems settling the specification
claims about them.

Modelling conventions:
* a spreadsheet cell is a scalar (`Cell`); `df.replace({np.nan: None})`
  makes missing cells `None`, modelled as `Cell.cnone`;
* Python dicts are association lists with unique keys, first-match
  lookup and in-place overwrite (`dset`), matching insertion order;
* Python floats are modelled as rationals `ℚ` (the claims under test
  are about which entries are summed, not float rounding);
* fallible Python operations (`float(...)` on a malformed string,
  `row[key]` on a missing column) return `Except`; an exception that
  the script catches at a block level is modelled by an `Except` whose
  error value carries the mutated state at the raise point.
-/

set_option maxHeartbeats 1600000

namespace CombinedExcelToPinecone

/-- Scalar value of one spreadsheet cell after `df.replace({np.nan: None})`:
`None`, a string, an int or a float (modelled as `ℚ`). -/
inductive Cell where
  | cnone
  | cstr (s : String)
  | cint (n : Int)
  | cnum (q : ℚ)
deriving DecidableEq

/-- Python value as stored inside an employee record: a scalar cell, a
dict of scalars, or a list of dicts of scalars — the only shapes the
script ever constructs. -/
inductive Value where
  | vcell (c : Cell)
  | vdict (d : List (String × Cell))
  | vlist (l : List (List (String × Cell)))
deriving DecidableEq

/-- A value is a scalar (not a nested dict or list). -/
def Value.isScalar : Value → Bool
  | .vcell _ => true
  | _ => false

/-- Python dict lookup: first matching key (the update operations below
keep keys unique, matching dict semantics). -/
def dlookup {α : Type} : List (String × α) → String → Option α
  | [], _ => none
  | (k, v) :: rest, key => if k = key then some v else dlookup rest key

/-- Python `d.get(key, dflt)`. -/
def dget {α : Type} (m : List (String × α)) (key : String) (dflt : α) : α :=
  (dlookup m key).getD dflt

/-- Python `key in d`. -/
def dmem {α : Type} (m : List (String × α)) (key : String) : Bool :=
  (dlookup m key).isSome

/-- Python dict assignment `d[key] = v`: overwrite in place keeping the
original position, else append at the end (insertion order). -/
def dset {α : Type} : List (String × α) → String → α → List (String × α)
  | [], key, v => [(key, v)]
  | (k, w) :: rest, key, v =>
      if k = key then (key, v) :: rest else (k, w) :: dset rest key v

/-- Python truthiness of a cell (`None`, `""`, `0`, `0.0` are falsy). -/
def Cell.isFalsy : Cell → Bool
  | .cnone => true
  | .cstr s => s = ""
  | .cint n => n = 0
  | .cnum q => q = 0

/-- `pd.notna` on a replaced cell: everything except `None`. -/
def notna (c : Cell) : Bool := c != Cell.cnone

/-- Numeric reading of a stored cell, as used by the summation code.
Fields read this way are always numeric for builder-produced entries;
a non-numeric value (where Python would raise in `sum`) is totalised to 0. -/
def Cell.toQ : Cell → ℚ
  | .cint n => (n : ℚ)
  | .cnum q => q
  | _ => 0

/-- Decimal digit characters only. -/
def allDigits (cs : List Char) : Bool := cs.all Char.isDigit

/-- Value of a digit string. -/
def digitsNat (cs : List Char) : Nat :=
  cs.foldl (fun a c => a * 10 + (c.toNat - 48)) 0

/-- Strip leading and trailing spaces. -/
def stripSpaces (cs : List Char) : List Char :=
  ((cs.dropWhile (· = ' ')).reverse.dropWhile (· = ' ')).reverse

/-- Optional leading sign; returns (negative?, rest). -/
def splitSign : List Char → Bool × List Char
  | '-' :: rest => (true, rest)
  | '+' :: rest => (false, rest)
  | cs => (false, cs)

/-- Parse the plain decimal-literal subset of Python `float(...)` on a
string: optional sign, digits, optional fractional part (exponent forms
are out of scope for the pipeline's data). -/
def parseDec (s : String) : Option ℚ :=
  let cs := stripSpaces s.toList
  let (neg, cs) := splitSign cs
  let ip := cs.takeWhile (· ≠ '.')
  let rest := cs.dropWhile (· ≠ '.')
  let fp := match rest with
    | [] => some ([] : List Char)
    | '.' :: f => if f.contains '.' then none else some f
    | _ => none
  match fp with
  | none => none
  | some f =>
      if allDigits ip && allDigits f && (ip ≠ [] || f ≠ []) then
        let v : ℚ := ((digitsNat ip * 10 ^ f.length + digitsNat f : ℕ) : ℚ) / ((10 ^ f.length : ℕ) : ℚ)
        some (if neg then -v else v)
      else none

/-- Python `float(x)`: succeeds on ints and floats, parses decimal
strings, raises (`error`) on `None` and malformed strings. -/
def pyFloat : Cell → Except Unit ℚ
  | .cnone => .error ()
  | .cstr s => match parseDec s with
      | some q => .ok q
      | none => .error ()
  | .cint n => .ok (n : ℚ)
  | .cnum q => .ok q

/-- Truncation toward zero, as Python `int(float)`. -/
def truncQ (q : ℚ) : Int := if q < 0 then -(Int.floor (-q)) else Int.floor q

/-- Parse the integer-literal subset of Python `int(...)` on a string. -/
def parseIntStr (s : String) : Option Int :=
  let cs := stripSpaces s.toList
  let (neg, cs) := splitSign cs
  if allDigits cs && cs ≠ [] then
    some (if neg then -(digitsNat cs : Int) else (digitsNat cs : Int))
  else none

/-- Python `int(x)`: ints pass through, floats truncate toward zero,
integer strings parse, anything else raises. -/
def pyInt : Cell → Except Unit Int
  | .cnone => .error ()
  | .cstr s => match parseIntStr s with
      | some n => .ok n
      | none => .error ()
  | .cint n => .ok n
  | .cnum q => .ok (truncQ q)

/-- Python `x or 0` on a cell. -/
def orZero (c : Cell) : Cell := if c.isFalsy then .cint 0 else c

/-- Fractional decimal digits of `rem / den` (stops at the exact
expansion or after `fuel` digits). -/
def fracDigits : Nat → Nat → Nat → List Char
  | 0, _, _ => []
  | _, 0, _ => []
  | fuel + 1, rem, den =>
      Char.ofNat (48 + rem * 10 / den) :: fracDigits fuel (rem * 10 % den) den

/-- Rendering of a float cell by `str`/f-strings. Integral floats render
as Python does (`12345.0`); for non-integral values this is a plain
decimal approximation of float repr, which no pipeline key ever uses. -/
def floatStr (q : ℚ) : String :=
  let sign := if q.num < 0 then "-" else ""
  let a := q.num.natAbs
  let b := q.den
  if a % b = 0 then sign ++ toString (a / b) ++ ".0"
  else sign ++ toString (a / b) ++ "." ++ String.mk (fracDigits 17 (a % b) b)

/-- Python `str(...)` / f-string rendering of a cell
(`str(None) = "None"`, ints render as digit strings). -/
def pyStr : Cell → String
  | .cnone => "None"
  | .cstr s => s
  | .cint n => toString n
  | .cnum q => floatStr q

/-- Python `str(...)` of a dict of cells (approximate repr; only reached
by f-strings over non-scalar values, which pipeline data never produces). -/
def dictRepr (d : List (String × Cell)) : String :=
  "\x7b" ++ String.intercalate ", "
    (d.map (fun kv => "\x27" ++ kv.1 ++ "\x27: " ++ pyStr kv.2)) ++ "\x7d"

/-- Python `str(...)` / f-string rendering of a stored value. -/
def pyStrV : Value → String
  | .vcell c => pyStr c
  | .vdict d => dictRepr d
  | .vlist l => "[" ++ String.intercalate ", " (l.map dictRepr) ++ "]"

/-- Round half to even, the rounding used by Python float formatting. -/
def pyRound0 (q : ℚ) : Int :=
  let f := Int.floor q
  let r := q - (f : ℚ)
  if r < 1 / 2 then f
  else if 1 / 2 < r then f + 1
  else if f % 2 = 0 then f else f + 1

/-- Insert thousands separators into a reversed digit list. -/
def groupRev : List Char → List Char
  | a :: b :: c :: d :: rest => a :: b :: c :: ',' :: groupRev (d :: rest)
  | cs => cs

/-- Python format `"{:,.0f}"`: round half to even to an integer, then
comma-group the digits. -/
def fmtW (q : ℚ) : String :=
  let n := pyRound0 q
  (if n < 0 then "-" else "") ++ String.mk (groupRev (toString n.natAbs).toList.reverse).reverse

end CombinedExcelToPinecone

namespace CombinedExcelToPinecone

/-- One spreadsheet row: column name to cell. -/
abbrev Row := List (String × Cell)

/-- One sheet as handed to a processing block: the column list
(`df.columns`) and the data rows. -/
structure Sheet where
  cols : List String
  rows : List Row
deriving DecidableEq

/-- `safe_read_sheet`: a failing read is caught inside the helper and
yields an empty frame (no columns, no rows). -/
def safeSheet : Except Unit Sheet → Sheet
  | .ok sh => sh
  | .error _ => ⟨[], []⟩

/-- `row.get(key)` (default `None`). -/
def getC (row : Row) (k : String) : Cell := dget row k .cnone

/-- `row[key]`: raises `KeyError` when the column is absent. -/
def idxC (row : Row) (k : String) : Except Unit Cell :=
  match dlookup row k with
  | some c => .ok c
  | none => .error ()

/-- `str(row.get(key))`. -/
def strGet (row : Row) (k : String) : Cell := .cstr (pyStr (getC row k))

/-- `str(row.get(key)) if pd.notna(row.get(key)) else None`. -/
def strOrNoneGet (row : Row) (k : String) : Cell :=
  if notna (getC row k) then .cstr (pyStr (getC row k)) else .cnone

/-- `float(row.get(key, 0) or 0)`. -/
def getF (row : Row) (k : String) : Except Unit ℚ :=
  pyFloat (orZero (dget row k (.cint 0)))

/-- `int(row.get(key, 0) or 0)`. -/
def getI (row : Row) (k : String) : Except Unit Int :=
  pyInt (orZero (dget row k (.cint 0)))

/-- `EmployeeDataStructure`. -/
structure Employee where
  sabon : String := ""
  employee_profile : List (String × Value) := []
  commission_contracts : List (List (String × Cell)) := []
  override_records : List (List (String × Cell)) := []
  policy_contracts : List (List (String × Cell)) := []
  performance_records : List (List (String × Value)) := []
  additional_allowances : List (String × Value) := []
  clawback_records : List (List (String × Cell)) := []
  summary_financials : List (String × ℚ) := []
deriving DecidableEq

/-- The processor's `self.employees` mapping, in insertion order. -/
abbrev EmpMap := List (String × Employee)

/-- The `if sabon not in self.employees: self.employees[sabon] =
EmployeeDataStructure(); ….sabon = sabon` creation pattern. -/
def ensure (m : EmpMap) (s : String) : EmpMap :=
  if dmem m s then m else m ++ [(s, { sabon := s })]

/-- In-place mutation of the record stored under a key (first match). -/
def modifyEmp : EmpMap → String → (Employee → Employee) → EmpMap
  | [], _, _ => []
  | (k, e) :: rest, s, f =>
      if k = s then (k, f e) :: rest else (k, e) :: modifyEmp rest s f

def appendContract (c : List (String × Cell)) (e : Employee) : Employee :=
  { e with commission_contracts := e.commission_contracts ++ [c] }

def appendOverride (o : List (String × Cell)) (e : Employee) : Employee :=
  { e with override_records := e.override_records ++ [o] }

def appendClawback (c : List (String × Cell)) (e : Employee) : Employee :=
  { e with clawback_records := e.clawback_records ++ [c] }

/-- Numeric fields of one `건별수수료` row, in source evaluation order. -/
def mkContractNums (row : Row) :
    Except Unit (Int × ℚ × ℚ × ℚ × ℚ × ℚ × ℚ × ℚ × ℚ × ℚ × ℚ × ℚ × ℚ × ℚ × ℚ × ℚ × ℚ × ℚ) := do
  let hc ← getI row "처리납입회차"
  let a1 ← getF row "배분율"
  let a2 ← getF row "보험료"
  let a3 ← getF row "MFYC"
  let a4 ← getF row "AFYC"
  let a5 ← getF row "보험사환산"
  let a6 ← getF row "지급율"
  let b1 ← getF row "[지급수수료] 모집"
  let b2 ← getF row "[지급수수료] 유지"
  let b3 ← getF row "[지급수수료] 자동차"
  let b4 ← getF row "[지급수수료] 일반"
  let b5 ← getF row "[지급수수료] 합계"
  let c1 ← getF row "[수입수수료] 성과"
  let c2 ← getF row "[수입수수료] 계약관리"
  let c3 ← getF row "[수입수수료] 수금"
  let c4 ← getF row "[수입수수료] 자동차"
  let c5 ← getF row "[수입수수료] 일반"
  let c6 ← getF row "[수입수수료] 합계"
  return (hc, a1, a2, a3, a4, a5, a6, b1, b2, b3, b4, b5, c1, c2, c3, c4, c5, c6)

/-- The contract dict appended by `process_commission_contracts`. -/
def mkContract (row : Row) : Except Unit (List (String × Cell)) :=
  match mkContractNums row with
  | .error e => .error e
  | .ok (hc, a1, a2, a3, a4, a5, a6, b1, b2, b3, b4, b5, c1, c2, c3, c4, c5, c6) =>
      .ok [("마감월", strGet row "마감월"),
           ("보험사", getC row "보험사"),
           ("증권번호", strGet row "증권번호"),
           ("계약일", strOrNoneGet row "계약일"),
           ("계약상태", getC row "처리계약상태"),
           ("납입회차", .cint hc),
           ("지급로직", getC row "지급로직"),
           ("납입방법", getC row "납입방법"),
           ("선지급_분급", getC row "선지급/분급"),
           ("규정", getC row "규정"),
           ("배분율", .cnum a1),
           ("보험료", .cnum a2),
           ("MFYC", .cnum a3),
           ("AFYC", .cnum a4),
           ("보험사환산", .cnum a5),
           ("지급율", .cnum a6),
           ("지급수수료_모집", .cnum b1),
           ("지급수수료_유지", .cnum b2),
           ("지급수수료_자동차", .cnum b3),
           ("지급수수료_일반", .cnum b4),
           ("지급수수료_합계", .cnum b5),
           ("수입수수료_성과", .cnum c1),
           ("수입수수료_계약관리", .cnum c2),
           ("수입수수료_수금", .cnum c3),
           ("수입수수료_자동차", .cnum c4),
           ("수입수수료_일반", .cnum c5),
           ("수입수수료_합계", .cnum c6),
           ("상품군1", getC row "상품군1"),
           ("상품군2", getC row "상품군2"),
           ("상품명", getC row "상품명"),
           ("계약자", getC row "계약자"),
           ("피보험자", getC row "피보험자"),
           ("교차판매", getC row "교차판매"),
           ("외부이관", getC row "외부이관")]

/-- One row of `process_commission_contracts`: key the payer, create the
record when unseen, append the contract. -/
def processCommissionRow (m : EmpMap) (row : Row) : Except Unit EmpMap := do
  let keyCell ← idxC row "지급사원번호"
  let sabon := pyStr keyCell
  let c ← mkContract row
  return modifyEmp (ensure m sabon) sabon (appendContract c)

def processCommissionRows (rows : List Row) (m : EmpMap) : Except Unit EmpMap :=
  rows.foldlM processCommissionRow m

/-- Numeric fields of one `건별OR` row, in source evaluation order. -/
def mkOverrideNums (row : Row) :
    Except Unit (Int × Int × ℚ × ℚ × ℚ × ℚ × ℚ × ℚ × ℚ) := do
  let a ← getI row "[FC] 입사차월"
  let b ← getI row "처리납입회차"
  let c ← getF row "보험료"
  let d ← getF row "MFYC"
  let e ← getF row "AFYC"
  let f ← getF row "LP커미션"
  let g ← getF row "[지급수수료] 지급율"
  let h ← getF row "[지급수수료] 오버라이드"
  let i ← getF row "[수입수수료] 합계"
  return (a, b, c, d, e, f, g, h, i)

/-- The receiver-side override dict built by `process_override_records`. -/
def mkOverride (row : Row) : Except Unit (List (String × Cell)) :=
  match mkOverrideNums row with
  | .error e => .error e
  | .ok (a, b, c, d, e, f, g, h, i) =>
      .ok [("마감월", strGet row "마감월"),
           ("역할", .cstr "receiver"),
           ("오버라이드_종류", getC row "[오버라이드] 종류"),
           ("오버라이드_대상자", getC row "[오버라이드] 대상자"),
           ("오버라이드_규정", getC row "[오버라이드] 규정"),
           ("FC_사번", strGet row "[FC] 대상자사번"),
           ("FC_대상자", getC row "[FC] 대상자"),
           ("FC_입사차월", .cint a),
           ("FC_규정", getC row "[FC] 규정"),
           ("보험사", getC row "보험사"),
           ("증권번호", strGet row "증권번호"),
           ("계약일", strOrNoneGet row "계약일"),
           ("계약상태", getC row "처리계약상태"),
           ("납입회차", .cint b),
           ("계산방식", getC row "계산방식"),
           ("납입방법", getC row "납입방법"),
           ("보험료", .cnum c),
           ("MFYC", .cnum d),
           ("AFYC", .cnum e),
           ("LP커미션", .cnum f),
           ("지급율", .cnum g),
           ("오버라이드_금액", .cnum h),
           ("수입수수료_합계", .cnum i),
           ("상품군1", getC row "상품군1"),
           ("상품군2", getC row "상품군2"),
           ("상품명", getC row "상품명"),
           ("계약자", getC row "계약자"),
           ("피보험자", getC row "피보험자")]

/-- `fc_override = override.copy()` followed by the three mutations
tagging the originator-side entry. -/
def fcCopy (ovr : List (String × Cell)) (receiverSabon : String) (receiverName : Cell) :
    List (String × Cell) :=
  dset (dset (dset ovr "역할" (.cstr "fc")) "수령자_사번" (.cstr receiverSabon)) "수령자_이름" receiverName

/-- One row of `process_override_records`: append the receiver-side
entry to the payee's record and the `fc`-tagged copy to the
originator's record. -/
def processOverrideRow (m : EmpMap) (row : Row) : Except Unit EmpMap := do
  let rCell ← idxC row "[오버라이드] 대상자사번"
  let receiver := pyStr rCell
  let ovr ← mkOverride row
  let m2 := modifyEmp (ensure m receiver) receiver (appendOverride ovr)
  let fCell ← idxC row "[FC] 대상자사번"
  let fc := pyStr fCell
  return modifyEmp (ensure m2 fc) fc
    (appendOverride (fcCopy ovr receiver (getC row "[오버라이드] 대상자")))

def processOverrideRows (rows : List Row) (m : EmpMap) : Except Unit EmpMap :=
  rows.foldlM processOverrideRow m

/-- The profile dict set by `process_individual_statements`. -/
def mkProfile (row : Row) : List (String × Value) :=
  [("사원명", .vcell (getC row "사원명")),
   ("직종", .vcell (getC row "직종")),
   ("Career_Path", .vcell (getC row "Career Path")),
   ("소속", .vcell (getC row "소속")),
   ("소속경로", .vcell (getC row "소속경로")),
   ("위촉구분", .vcell (getC row "위촉구분")),
   ("위촉일", .vcell (strOrNoneGet row "위촉일")),
   ("영업개시일", .vcell (strOrNoneGet row "영업개시일")),
   ("퇴사일자", .vcell (strOrNoneGet row "퇴사일자")),
   ("부지급여부", .vcell (getC row "부지급여부")),
   ("계좌번호", .vcell (strOrNoneGet row "계좌번호")),
   ("은행", .vcell (getC row "은행")),
   ("마감월", .vcell (strGet row "마감월")),
   ("조직", .vdict [("회사", getC row "현재 소속경로_회사"),
                    ("구분", getC row "현재 소속경로_구분"),
                    ("본부", getC row "현재 소속경로_본부"),
                    ("사업단", getC row "현재 소속경로_사업단"),
                    ("Agency", getC row "현재 소속경로_Agency"),
                    ("팀", getC row "현재 소속경로_팀")])]

/-- The directly-reported monetary fields seeded from the roster row. -/
def mkSummarySeed (row : Row) : Except Unit (List (String × ℚ)) := do
  let v01 ← getF row "최종지급액"
  let v02 ← getF row "커미션계"
  let v03 ← getF row "FC 커미션계"
  let v04 ← getF row "FC계약모집 커미션Ⅱ"
  let v05 ← getF row "현금시책"
  let v06 ← getF row "FC계약유지 및 서비스 커미션Ⅱ"
  let v07 ← getF row "오버라이드계"
  let v08 ← getF row "BM 오버라이드Ⅱ"
  let v09 ← getF row "MD 오버라이드Ⅱ"
  let v10 ← getF row "사업단장 오버라이드Ⅱ"
  let v11 ← getF row "지사장 오버라이드Ⅱ"
  let v12 ← getF row "유치자 오버라이드Ⅱ"
  let v13 ← getF row "공통커미션계"
  let v14 ← getF row "Account Balance 당월적립액"
  let v15 ← getF row "Account Balance 지급액"
  let v16 ← getF row "이월 보수 환수금액"
  let v17 ← getF row "미환수 유보금액"
  let v18 ← getF row "기타커미션계"
  let v19 ← getF row "지사지급"
  let v20 ← getF row "과세계"
  let v21 ← getF row "공제계"
  let v22 ← getF row "소득세"
  let v23 ← getF row "주민세"
  let v24 ← getF row "원천세"
  let v25 ← getF row "근로산재보험료"
  let v26 ← getF row "고용보험료"
  return [("최종지급액", v01), ("커미션계", v02), ("FC_커미션계", v03),
          ("FC계약모집_커미션", v04), ("현금시책", v05), ("FC계약유지_커미션", v06),
          ("오버라이드계", v07), ("BM_오버라이드", v08), ("MD_오버라이드", v09),
          ("사업단장_오버라이드", v10), ("지사장_오버라이드", v11), ("유치자_오버라이드", v12),
          ("공통커미션계", v13), ("Account_Balance_당월적립액", v14), ("Account_Balance_지급액", v15),
          ("이월_보수_환수금액", v16), ("미환수_유보금액", v17), ("기타커미션계", v18),
          ("지사지급", v19), ("과세계", v20), ("공제계", v21), ("소득세", v22),
          ("주민세", v23), ("원천세", v24), ("근로산재보험료", v25), ("고용보험료", v26)]

/-- One row of `process_individual_statements` (`인별명세`): establish
the profile and seed the summary financials. -/
def processIndividualRow (m : EmpMap) (row : Row) : Except Unit EmpMap := do
  let keyCell ← idxC row "사번"
  let sabon := pyStr keyCell
  let m1 := ensure m sabon
  let sf ← mkSummarySeed row
  return modifyEmp m1 sabon (fun e =>
    { e with sabon := sabon, employee_profile := mkProfile row, summary_financials := sf })

def processIndividualRows (rows : List Row) (m : EmpMap) : Except Unit EmpMap :=
  rows.foldlM processIndividualRow m

end CombinedExcelToPinecone

namespace CombinedExcelToPinecone

/-- Row loop of a block whose body sits inside a `try/except`: the first
raising row stops the loop, keeping every mutation made so far (the
`error` payload is the state at the raise point). -/
def foldCaught (f : EmpMap → Row → Except EmpMap EmpMap) : EmpMap → List Row → EmpMap
  | m, [] => m
  | m, r :: rs =>
      match f m r with
      | .ok m' => foldCaught f m' rs
      | .error m' => m'

/-- Update of `additional_allowances[key]` on one record. -/
def setAllowance (key : String) (v : Value) (e : Employee) : Employee :=
  { e with additional_allowances := dset e.additional_allowances key v }

/-- One row of the `시책2 인별명セ` block: guard on the `FC 사번` column,
then assign the single amount-bearing dict under `시책2_지사시책`. -/
def stepSijaek2 (cols : List String) (m : EmpMap) (row : Row) : Except EmpMap EmpMap :=
  if cols.contains "FC 사번" && notna (getC row "FC 사번") then
    match dlookup row "FC 사번" with
    | none => .error m
    | some c =>
        let sabon := pyStr c
        let m1 := ensure m sabon
        match getF row "지급액" with
        | .error _ => .error m1
        | .ok amt =>
            .ok (modifyEmp m1 sabon
              (setAllowance "시책2_지사시책" (.vdict [("금액", .cnum amt), ("비고", getC row "비고")])))
  else .ok m

/-- One row of the `손보EXT` block. -/
def stepSonboExt (cols : List String) (m : EmpMap) (row : Row) : Except EmpMap EmpMap :=
  if cols.contains "FC 사번" && notna (getC row "FC 사번") then
    match dlookup row "FC 사번" with
    | none => .error m
    | some c =>
        let sabon := pyStr c
        let m1 := ensure m sabon
        match getF row "손보시책 Ext" with
        | .error _ => .error m1
        | .ok amt =>
            .ok (modifyEmp m1 sabon
              (setAllowance "손보EXT" (.vdict [("금액", .cnum amt), ("비고", getC row "비고")])))
  else .ok m

/-- Numeric fields of one `수당_신입IP(2025위촉)` row. -/
def sinipNums (row : Row) : Except Unit (ℚ × ℚ × ℚ) := do
  let amt ← getF row "지급액"
  let mj ← getF row "모집(환산)업적"
  let jd ← getF row "지급대상액"
  return (amt, mj, jd)

/-- One row of the `수당_신입IP(2025위촉)` block. -/
def stepSinipIp (cols : List String) (m : EmpMap) (row : Row) : Except EmpMap EmpMap :=
  if cols.contains "FC 사번" && notna (getC row "FC 사번") then
    match dlookup row "FC 사번" with
    | none => .error m
    | some c =>
        let sabon := pyStr c
        let m1 := ensure m sabon
        match sinipNums row with
        | .error _ => .error m1
        | .ok (amt, mj, jd) =>
            .ok (modifyEmp m1 sabon
              (setAllowance "신입IP수당"
                (.vdict [("금액", .cnum amt), ("모집업적", .cnum mj), ("지급대상액", .cnum jd)])))
  else .ok m

/-- Numeric fields of one `MGR상생(BM)` row. -/
def mgrNums (row : Row) : Except Unit (ℚ × ℚ × ℚ × ℚ) := do
  let amt ← getF row "활성화 지원금"
  let tot ← getF row "총 모집업적\n(생,손보)"
  let son ← getF row "손보모집업적(①)"
  let rate ← getF row "지급율(%)"
  return (amt, tot, son, rate)

/-- One row of the `MGR상생(BM)` block (keyed by the `사번` column). -/
def stepMgr (cols : List String) (m : EmpMap) (row : Row) : Except EmpMap EmpMap :=
  if cols.contains "사번" && notna (getC row "사번") then
    match dlookup row "사번" with
    | none => .error m
    | some c =>
        let sabon := pyStr c
        let m1 := ensure m sabon
        match mgrNums row with
        | .error _ => .error m1
        | .ok (amt, tot, son, rate) =>
            .ok (modifyEmp m1 sabon
              (setAllowance "MGR상생"
                (.vdict [("금액", .cnum amt), ("총_모집업적", .cnum tot),
                         ("손보모집업적", .cnum son), ("지급율", .cnum rate)])))
  else .ok m

/-- The retention dict built from one `13회차 유지(4%)` row. -/
def mkRetention (row : Row) (hc : Int) (rate amt : ℚ) : List (String × Cell) :=
  [("보험사", getC row "보험사"),
   ("증권번호", strOrNoneGet row "증번"),
   ("계약일", strOrNoneGet row "계약일"),
   ("회차", .cint hc),
   ("상품명", getC row "상품명"),
   ("추가지급율", .cnum rate),
   ("지급액", .cnum amt),
   ("비고", getC row "비고")]

/-- Append to the per-policy retention list under `13회차유지`,
initialising it on first use. -/
def appendRetention (ret : List (String × Cell)) (e : Employee) : Employee :=
  let cur := match dlookup e.additional_allowances "13회차유지" with
    | some (.vlist l) => l
    | _ => []
  { e with additional_allowances := dset e.additional_allowances "13회차유지" (.vlist (cur ++ [ret])) }

/-- Numeric fields of one `13회차 유지(4%)` row. -/
def retNums (row : Row) : Except Unit (Int × ℚ × ℚ) := do
  let hc ← getI row "회차"
  let rate ← getF row "추가지급율"
  let amt ← getF row "지급액"
  return (hc, rate, amt)

/-- One row of the `13회차 유지(4%)` block: the cardinality-many
category that accumulates one entry per matching source row. -/
def stepRetention (cols : List String) (m : EmpMap) (row : Row) : Except EmpMap EmpMap :=
  if cols.contains "FC 사번" && notna (getC row "FC 사번") then
    match dlookup row "FC 사번" with
    | none => .error m
    | some c =>
        let sabon := pyStr c
        let m1 := ensure m sabon
        match retNums row with
        | .error _ => .error m1
        | .ok (hc, rate, amt) =>
            .ok (modifyEmp m1 sabon (appendRetention (mkRetention row hc rate amt)))
  else .ok m

def blockSijaek2 (src : Except Unit Sheet) (m : EmpMap) : EmpMap :=
  let sh := safeSheet src
  foldCaught (stepSijaek2 sh.cols) m sh.rows

def blockSonboExt (src : Except Unit Sheet) (m : EmpMap) : EmpMap :=
  let sh := safeSheet src
  foldCaught (stepSonboExt sh.cols) m sh.rows

def blockSinipIp (src : Except Unit Sheet) (m : EmpMap) : EmpMap :=
  let sh := safeSheet src
  foldCaught (stepSinipIp sh.cols) m sh.rows

def blockMgr (src : Except Unit Sheet) (m : EmpMap) : EmpMap :=
  let sh := safeSheet src
  foldCaught (stepMgr sh.cols) m sh.rows

def blockRetention (src : Except Unit Sheet) (m : EmpMap) : EmpMap :=
  let sh := safeSheet src
  foldCaught (stepRetention sh.cols) m sh.rows

/-- `process_additional_allowances`: the five independently optional
allowance sources, each inside its own `try/except`. -/
def process_additional_allowances (s1 s2 s3 s4 s5 : Except Unit Sheet) (m : EmpMap) : EmpMap :=
  blockRetention s5 (blockMgr s4 (blockSinipIp s3 (blockSonboExt s2 (blockSijaek2 s1 m))))

/-- Numeric fields of one `환수_시책2지급분_완료` row. -/
def hwansuSijaek2Nums (row : Row) : Except Unit (ℚ × ℚ × ℚ) := do
  let ini ← getF row "초기_월납P"
  let chg ← getF row "변경_월납P"
  let amt ← getF row "지급액"
  return (ini, chg, amt)

/-- One row of the `환수_시책2지급분_완료` block. -/
def stepHwansuSijaek2 (cols : List String) (m : EmpMap) (row : Row) : Except EmpMap EmpMap :=
  if cols.contains "사번" && notna (getC row "사번") then
    match dlookup row "사번" with
    | none => .error m
    | some c =>
        let sabon := pyStr c
        let m1 := ensure m sabon
        match hwansuSijaek2Nums row with
        | .error _ => .error m1
        | .ok (ini, chg, amt) =>
            .ok (modifyEmp m1 sabon (appendClawback
              [("환수유형", .cstr "시책2지급분"),
               ("보험사", getC row "보험사"),
               ("증권번호", strOrNoneGet row "증번"),
               ("계약일", strOrNoneGet row "계약일"),
               ("상품명", getC row "상품명"),
               ("계약상태", getC row "계약상태"),
               ("초기_월납P", .cnum ini),
               ("변경_월납P", .cnum chg),
               ("환수금액", .cnum amt)]))
  else .ok m

/-- Numeric fields of one `환수_소개비_완료` row. -/
def sogaebiNums (row : Row) : Except Unit (Int × ℚ) := do
  let cnt ← getI row "도입인원"
  let amt ← getF row "환수대상액"
  return (cnt, amt)

/-- One row of the `환수_소개비_완료` block. -/
def stepHwansuSogaebi (cols : List String) (m : EmpMap) (row : Row) : Except EmpMap EmpMap :=
  if cols.contains "사번" && notna (getC row "사번") then
    match dlookup row "사번" with
    | none => .error m
    | some c =>
        let sabon := pyStr c
        let m1 := ensure m sabon
        match sogaebiNums row with
        | .error _ => .error m1
        | .ok (cnt, amt) =>
            .ok (modifyEmp m1 sabon (appendClawback
              [("환수유형", .cstr "소개비"),
               ("도입자사번", strOrNoneGet row "도입자사번"),
               ("도입인원", .cint cnt),
               ("위촉일", strOrNoneGet row "위촉일"),
               ("해촉일", strOrNoneGet row "해촉일"),
               ("환수금액", .cnum amt)]))
  else .ok m

/-- One row of the `환수_교육비_완료` block. -/
def stepHwansuGyoyukbi (cols : List String) (m : EmpMap) (row : Row) : Except EmpMap EmpMap :=
  if cols.contains "사번" && notna (getC row "사번") then
    match dlookup row "사번" with
    | none => .error m
    | some c =>
        let sabon := pyStr c
        let m1 := ensure m sabon
        match getF row "환수대상액" with
        | .error _ => .error m1
        | .ok amt =>
            .ok (modifyEmp m1 sabon (appendClawback
              [("환수유형", .cstr "교육비"),
               ("위촉일", strOrNoneGet row "위촉일"),
               ("해촉일", strOrNoneGet row "해촉일"),
               ("환수금액", .cnum amt),
               ("기준월", strOrNoneGet row "기준월")]))
  else .ok m

def blockHwansuSijaek2 (src : Except Unit Sheet) (m : EmpMap) : EmpMap :=
  let sh := safeSheet src
  foldCaught (stepHwansuSijaek2 sh.cols) m sh.rows

def blockHwansuSogaebi (src : Except Unit Sheet) (m : EmpMap) : EmpMap :=
  let sh := safeSheet src
  foldCaught (stepHwansuSogaebi sh.cols) m sh.rows

def blockHwansuGyoyukbi (src : Except Unit Sheet) (m : EmpMap) : EmpMap :=
  let sh := safeSheet src
  foldCaught (stepHwansuGyoyukbi sh.cols) m sh.rows

/-- `process_clawback_records`: the three independently optional
clawback sources, each inside its own `try/except`. -/
def process_clawback_records (c1 c2 c3 : Except Unit Sheet) (m : EmpMap) : EmpMap :=
  blockHwansuGyoyukbi c3 (blockHwansuSogaebi c2 (blockHwansuSijaek2 c1 m))

end CombinedExcelToPinecone

namespace CombinedExcelToPinecone

/-- `sum(entry.get(key, 0) for entry in l)` over stored dicts. -/
def sumField (l : List (List (String × Cell))) (k : String) : ℚ :=
  (l.map (fun c => (dget c k (.cint 0)).toQ)).sum

/-- The `o.get('역할') == 'receiver'` filter of the derivation pass. -/
def isReceiver (o : List (String × Cell)) : Bool :=
  dget o "역할" .cnone == .cstr "receiver"

def commissionTotal (e : Employee) : ℚ := sumField e.commission_contracts "지급수수료_합계"

def overrideTotal (e : Employee) : ℚ :=
  sumField (e.override_records.filter isReceiver) "오버라이드_금액"

def policyTotal (e : Employee) : ℚ := sumField e.policy_contracts "지급_계"

def clawbackTotal (e : Employee) : ℚ := sumField e.clawback_records "환수금액"

/-- The eight assignments of the derivation pass into
`summary_financials`, in source order. -/
def setDerived (sf : List (String × ℚ)) (t1 t2 t3 t4 n1 n2 n3 n4 : ℚ) : List (String × ℚ) :=
  dset (dset (dset (dset (dset (dset (dset (dset sf
    "총_커미션" t1) "총_오버라이드" t2) "총_시책금액" t3) "총_환수금액" t4)
    "계약건수" n1) "오버라이드건수" n2) "시책계약건수" n3) "환수건수" n4

/-- Derivation pass on one record (`calculate_aggregated_financials`
body): recompute the four totals and four counts from the four lists
and assign them into `summary_financials`. -/
def deriveFin (e : Employee) : Employee :=
  let sf := setDerived e.summary_financials (commissionTotal e) (overrideTotal e)
    (policyTotal e) (clawbackTotal e) (e.commission_contracts.length : ℚ)
    ((e.override_records.filter isReceiver).length : ℚ)
    (e.policy_contracts.length : ℚ) (e.clawback_records.length : ℚ)
  { e with summary_financials := sf }

/-- `calculate_aggregated_financials`: the derivation pass over every
employee record. -/
def calculate_aggregated_financials (m : EmpMap) : EmpMap :=
  m.map (fun p => (p.1, deriveFin p.2))

/-- Grouping into first-seen-order buckets (`if key not in d: d[key] =
[]; d[key].append(x)`). -/
def addToGroup {α : Type} : List (Cell × List α) → Cell → α → List (Cell × List α)
  | [], k, x => [(k, [x])]
  | (k', xs) :: rest, k, x =>
      if k' = k then (k', xs ++ [x]) :: rest else (k', xs) :: addToGroup rest k x

def groupByKey {α : Type} (key : α → Cell) (l : List α) : List (Cell × List α) :=
  l.foldl (fun acc x => addToGroup acc (key x) x) []

/-- Grouping that accumulates a running sum per key (`if key not in d:
d[key] = 0; d[key] += q`). -/
def addToGroupSum : List (Cell × ℚ) → Cell → ℚ → List (Cell × ℚ)
  | [], k, q => [(k, q)]
  | (k', a) :: rest, k, q =>
      if k' = k then (k', a + q) :: rest else (k', a) :: addToGroupSum rest k q

def groupSumBy {α : Type} (key : α → Cell) (amt : α → ℚ) (l : List α) : List (Cell × ℚ) :=
  l.foldl (fun acc x => addToGroupSum acc (key x) (amt x)) []

/-- `employee_profile.get(key, '')`. -/
def pget (e : Employee) (k : String) : Value :=
  dget e.employee_profile k (.vcell (.cstr ""))

/-- Profile header lines of `to_text_for_embedding`. -/
def profileSection (e : Employee) : List String :=
  if e.employee_profile.isEmpty then [] else
    ["사번: " ++ e.sabon,
     "사원명: " ++ pyStrV (pget e "사원명"),
     "직종: " ++ pyStrV (pget e "직종"),
     "소속: " ++ pyStrV (pget e "소속"),
     "소속경로: " ++ pyStrV (pget e "소속경로"),
     "위촉일: " ++ pyStrV (pget e "위촉일"),
     "위촉구분: " ++ pyStrV (pget e "위촉구분")]

/-- Financial summary lines of `to_text_for_embedding`. -/
def summarySection (e : Employee) : List String :=
  if e.summary_financials.isEmpty then [] else
    ["\n## 재무 요약",
     "최종지급액: " ++ fmtW (dget e.summary_financials "최종지급액" 0) ++ "원",
     "총 커미션: " ++ fmtW (dget e.summary_financials "총_커미션" 0) ++ "원",
     "총 오버라이드: " ++ fmtW (dget e.summary_financials "총_오버라이드" 0) ++ "원",
     "총 시책금액: " ++ fmtW (dget e.summary_financials "총_시책금액" 0) ++ "원",
     "총 환수금액: " ++ fmtW (dget e.summary_financials "총_환수금액" 0) ++ "원"]

/-- Commission section: count, total, and per-insurer breakdown in
first-seen order. Empty when the list is empty. -/
def commissionSection (e : Employee) : List String :=
  if e.commission_contracts.isEmpty then [] else
    ["\n## 수수료 계약: " ++ toString e.commission_contracts.length ++ "건",
     "총 수수료: " ++ fmtW (sumField e.commission_contracts "지급수수료_합계") ++ "원",
     "보험사별 계약:"] ++
    (groupByKey (fun c => dget c "보험사" (.cstr "")) e.commission_contracts).map
      (fun g => "  - " ++ pyStr g.1 ++ ": " ++ toString g.2.length ++ "건, " ++
                fmtW (sumField g.2 "지급수수료_합계") ++ "원")

/-- Override section: count, total over all entries, per-type breakdown. -/
def overrideSection (e : Employee) : List String :=
  if e.override_records.isEmpty then [] else
    ["\n## 오버라이드: " ++ toString e.override_records.length ++ "건",
     "총 오버라이드: " ++ fmtW (sumField e.override_records "오버라이드_금액") ++ "원"] ++
    (groupByKey (fun o => dget o "오버라이드_종류" (.cstr "")) e.override_records).map
      (fun g => "  - " ++ pyStr g.1 ++ ": " ++ toString g.2.length ++ "건, " ++
                fmtW (sumField g.2 "오버라이드_금액") ++ "원")

/-- Policy section: count and total only. -/
def policySection (e : Employee) : List String :=
  if e.policy_contracts.isEmpty then [] else
    ["\n## 시책 계약: " ++ toString e.policy_contracts.length ++ "건",
     "총 시책금액: " ++ fmtW (sumField e.policy_contracts "지급_계") ++ "원"]

/-- One allowance mapping entry rendered by the allowance section:
positive numbers and positive amount-bearing dicts only. -/
def allowanceLine (kv : String × Value) : List String :=
  match kv.2 with
  | .vcell (.cint n) => if 0 < n then ["  - " ++ kv.1 ++ ": " ++ fmtW (n : ℚ) ++ "원"] else []
  | .vcell (.cnum q) => if 0 < q then ["  - " ++ kv.1 ++ ": " ++ fmtW q ++ "원"] else []
  | .vdict d =>
      if 0 < (dget d "금액" (.cint 0)).toQ then
        ["  - " ++ kv.1 ++ ": " ++ fmtW (dget d "금액" (.cint 0)).toQ ++ "원"]
      else []
  | _ => []

/-- Additional-allowance section. -/
def allowanceSection (e : Employee) : List String :=
  if e.additional_allowances.isEmpty then [] else
    "\n## 추가 수당" :: e.additional_allowances.foldr (fun kv acc => allowanceLine kv ++ acc) []

/-- Clawback section: count, total, and per-type accumulated sums. -/
def clawbackSection (e : Employee) : List String :=
  if e.clawback_records.isEmpty then [] else
    ["\n## 환수 기록: " ++ toString e.clawback_records.length ++ "건",
     "총 환수금액: " ++ fmtW (sumField e.clawback_records "환수금액") ++ "원"] ++
    (groupSumBy (fun c => dget c "환수유형" (.cstr ""))
        (fun c => (dget c "환수금액" (.cint 0)).toQ) e.clawback_records).map
      (fun g => "  - " ++ pyStr g.1 ++ ": " ++ fmtW g.2 ++ "원")

/-- Performance section: count only. -/
def performanceSection (e : Employee) : List String :=
  if e.performance_records.isEmpty then [] else
    ["\n## 업적 기록: " ++ toString e.performance_records.length ++ "건"]

/-- `EmployeeDataStructure.to_text_for_embedding`: the joined parts. -/
def to_text_for_embedding (e : Employee) : String :=
  String.intercalate "\n"
    (profileSection e ++ summarySection e ++ commissionSection e ++ overrideSection e ++
     policySection e ++ allowanceSection e ++ clawbackSection e ++ performanceSection e)

/-- A produced document `{id, doc_type, text, metadata}`. -/
structure Doc where
  id : String
  doc_type : String
  text : String
  metadata : List (String × Value)
deriving DecidableEq

/-- The single `employee_profile` document built per record. -/
def mkProfileDoc (sabon : String) (e : Employee) : Doc :=
  { id := sabon ++ "_profile",
    doc_type := "employee_profile",
    text := to_text_for_embedding e,
    metadata := [("사번", .vcell (.cstr sabon)),
                 ("사원명", pget e "사원명"),
                 ("직종", pget e "직종"),
                 ("소속", pget e "소속"),
                 ("위촉일", pget e "위촉일"),
                 ("최종지급액", .vcell (.cnum (dget e.summary_financials "최종지급액" 0))),
                 ("총_커미션", .vcell (.cnum (dget e.summary_financials "총_커미션" 0))),
                 ("총_오버라이드", .vcell (.cnum (dget e.summary_financials "총_오버라이드" 0))),
                 ("계약건수", .vcell (.cnum (dget e.summary_financials "계약건수" 0)))] }

/-- `generate_employee_centric_documents`: one profile document per
record, in mapping order. -/
def generate_employee_centric_documents (m : EmpMap) : List Doc :=
  m.map (fun p => mkProfileDoc p.1 p.2)

/-- A vector handed to the index upsert call. -/
structure UpsertVector where
  id : String
  values : List ℚ
  metadata : List (String × Value)
deriving DecidableEq

/-- Uncaught exceptions of the upload step: `KeyError` on a missing
metadata key, `ValueError` from `range` with step 0, and the
security-check `ValueError` carrying both identifiers. -/
inductive UploadErr where
  | keyErr
  | valueErr
  | isolationMismatch (docSabon empSabon : Value)
deriving DecidableEq

/-- Grouping accumulator for `docs_by_employee`. -/
def addDocGroup : List (Value × List Doc) → Value → Doc → List (Value × List Doc)
  | [], k, d => [(k, [d])]
  | (k', ds) :: rest, k, d =>
      if k' = k then (k', ds ++ [d]) :: rest else (k', ds) :: addDocGroup rest k d

/-- `docs_by_employee`: group documents by their own
`metadata['사번']` (a `KeyError` aborts the run). -/
def groupDocsByEmployee (docs : List Doc) : Except UploadErr (List (Value × List Doc)) :=
  docs.foldlM (fun acc d =>
    match dlookup d.metadata "사번" with
    | none => .error .keyErr
    | some v => .ok (addDocGroup acc v d)) []

/-- The merged vector metadata: the three pinned keys followed by the
remaining non-`None` document metadata. -/
def vectorMeta (d : Doc) (sabonV nameV : Value) : List (String × Value) :=
  [("사번", sabonV), ("사원명", nameV), ("doc_type", .vcell (.cstr d.doc_type))] ++
  d.metadata.filter (fun kv =>
    !(kv.1 == "사번") && !(kv.1 == "사원명") && !(kv.1 == "doc_type") &&
    !(decide (kv.2 = Value.vcell .cnone)))

/-- The vector-building loop over one batch (source lines 924-944): on
the first document whose declared `사번` differs from the batch's
employee key the security `ValueError` is raised, aborting the whole
batch (nothing of it survives) and propagating out of the upload. -/
def buildVectors (emb : String → List ℚ) (sabon : Value) (batch : List Doc) :
    Except UploadErr (List UpsertVector) :=
  batch.foldlM (fun acc d =>
    match dlookup d.metadata "사번" with
    | none => .error .keyErr
    | some ds =>
        if ds = sabon then
          match dlookup d.metadata "사원명" with
          | none => .error .keyErr
          | some nv =>
              .ok (acc ++ [{ id := d.id, values := emb d.text, metadata := vectorMeta d ds nv }])
        else .error (.isolationMismatch ds sabon)) []

def chunkGo {α : Type} (bs : Nat) : Nat → List α → List (List α)
  | 0, _ => []
  | _ + 1, [] => []
  | fuel + 1, x :: xs => (x :: xs).take bs :: chunkGo bs fuel ((x :: xs).drop bs)

/-- `range(0, len(l), bs)` batching. -/
def chunkList {α : Type} (bs : Nat) (l : List α) : List (List α) := chunkGo bs l.length l

/-- `upload_documents`: group by employee, batch, embed (a batch the
embedding helper rejects as oversized is skipped by the caught
exception), build vectors with the isolation check, and upsert under
the namespace `employee_<sabon>`. The embedding boundary is the
one-to-one order-preserving function `emb`. -/
def uploadDocuments (emb : String → List ℚ) (batchSize : Nat) (docs : List Doc) :
    Except UploadErr (List (String × List UpsertVector)) := do
  let gs ← groupDocsByEmployee docs
  gs.foldlM (fun acc g =>
    if batchSize = 0 then .error .valueErr
    else
      (chunkList batchSize g.2).foldlM (fun acc2 ch =>
        if 2048 < ch.length then .ok acc2
        else do
          let vs ← buildVectors emb g.1 ch
          return acc2 ++ [("employee_" ++ pyStrV g.1, vs)]) acc) []

/-- The run ended in the security `ValueError` of the isolation check. -/
def isIsolationError {α : Type} : Except UploadErr α → Bool
  | .error (.isolationMismatch _ _) => true
  | _ => false

/-- Total number of override entries across the whole record set. -/
def totalOverrideEntries (m : EmpMap) : Nat :=
  (m.map (fun p => p.2.override_records.length)).sum

end CombinedExcelToPinecone

namespace CombinedExcelToPinecone

/-- Trivial embedding boundary used to instantiate upload theorems. -/
def embZero : String → List ℚ := fun _ => []

/-- A well-formed document of employee `1`. -/
def docGoodA : Doc :=
  { id := "1_profile", doc_type := "employee_profile", text := "tA",
    metadata := [("사번", .vcell (.cstr "1")), ("사원명", .vcell (.cstr "Kim"))] }

/-- A document declaring employee `2`, placed in employee `1`'s batch. -/
def docMismatch : Doc :=
  { id := "2_profile", doc_type := "employee_profile", text := "tB",
    metadata := [("사번", .vcell (.cstr "2")), ("사원명", .vcell (.cstr "Lee"))] }

/-- A second well-formed document of employee `1`. -/
def docGoodB : Doc :=
  { id := "1_extra", doc_type := "employee_profile", text := "tC",
    metadata := [("사번", .vcell (.cstr "1")), ("사원명", .vcell (.cstr "Kim"))] }

/-- Valid first row of the deliberately malformed retention source. -/
def c3Row1 : Row := [("FC 사번", .cstr "1"), ("지급액", .cnum 100)]

/-- Second row whose amount cell is a non-numeric string, so
`float(...)` raises mid-source. -/
def c3RowBad : Row := [("FC 사번", .cstr "2"), ("지급액", .cstr "malformed")]

/-- A readable retention sheet whose second row is malformed. -/
def c3BadSheet : Sheet := ⟨["FC 사번", "지급액"], [c3Row1, c3RowBad]⟩

/-- A record built by other sources, present before the failing
optional source runs. -/
def c3PriorEmp : Employee := { sabon := "x", commission_contracts := [[("지급수수료_합계", .cnum 1)]] }

/-- A mapping holding `c3PriorEmp` before optional-source processing. -/
def c3PriorMap : EmpMap := [("x", c3PriorEmp)]

/-- A concrete override source row: receiver `1`, originating FC `2`. -/
def c6Row : Row :=
  [("[오버라이드] 대상자사번", .cstr "1"), ("[FC] 대상자사번", .cstr "2"),
   ("[오버라이드] 대상자", .cstr "Kim"), ("[지급수수료] 오버라이드", .cnum 77)]

def c7ContractA1 : List (String × Cell) := [("보험사", .cstr "A"), ("지급수수료_합계", .cnum 60)]

def c7ContractA2 : List (String × Cell) := [("보험사", .cstr "A"), ("지급수수료_합계", .cnum 40)]

def c7ContractB : List (String × Cell) := [("보험사", .cstr "B"), ("지급수수료_합계", .cnum 50)]

/-- A record with commission entries across insurers
A (2 entries, 100 total) and B (1 entry, 50 total). -/
def c7Emp : Employee := { sabon := "E1", commission_contracts := [c7ContractA1, c7ContractA2, c7ContractB] }

/-- A commission row whose payer identifier cell is the int `n`. -/
def commRowInt (n : Nat) : Row := [("지급사원번호", .cint (n : Int))]

/-- A commission row whose payer identifier cell is the string of `n`. -/
def commRowStr (n : Nat) : Row := [("지급사원번호", .cstr (toString n))]

/-- A commission row whose payer identifier cell is the float `n`, the
cell type pandas yields for a numeric column that also contains blanks. -/
def commRowNum (n : Nat) : Row := [("지급사원번호", .cnum (n : ℚ))]

/-- A roster row whose identifier cell is the int `n`. -/
def rosterRowInt (n : Nat) : Row := [("사번", .cint (n : Int))]

/-- A roster row whose identifier cell is the string of `n`. -/
def rosterRowStr (n : Nat) : Row := [("사번", .cstr (toString n))]

/-- Record equality up to the allowance entry stored under `key`:
everything else, including allowance entries under other category
names, must be unchanged. -/
def SameButAllowanceKey (key : String) (e e' : Employee) : Prop :=
  e'.sabon = e.sabon ∧ e'.employee_profile = e.employee_profile ∧
  e'.commission_contracts = e.commission_contracts ∧
  e'.override_records = e.override_records ∧
  e'.policy_contracts = e.policy_contracts ∧
  e'.performance_records = e.performance_records ∧
  e'.clawback_records = e.clawback_records ∧
  e'.summary_financials = e.summary_financials ∧
  ∀ k, k ≠ key → dlookup e'.additional_allowances k = dlookup e.additional_allowances k

/-- Every record present before an allowance block is still present
afterwards with all its other-category data intact. -/
def PreservesExceptAllowance (key : String) (m m' : EmpMap) : Prop :=
  ∀ s e, dlookup m s = some e → ∃ e', dlookup m' s = some e' ∧ SameButAllowanceKey key e e'

/-- Record equality up to appended clawback entries. -/
def SameButClawbackAppend (e e' : Employee) : Prop :=
  e'.sabon = e.sabon ∧ e'.employee_profile = e.employee_profile ∧
  e'.commission_contracts = e.commission_contracts ∧
  e'.override_records = e.override_records ∧
  e'.policy_contracts = e.policy_contracts ∧
  e'.performance_records = e.performance_records ∧
  e'.additional_allowances = e.additional_allowances ∧
  e'.summary_financials = e.summary_financials ∧
  ∃ extra, e'.clawback_records = e.clawback_records ++ extra

/-- Every record present before a clawback block is still present
afterwards with all its non-clawback data intact. -/
def PreservesExceptClawback (m m' : EmpMap) : Prop :=
  ∀ s e, dlookup m s = some e → ∃ e', dlookup m' s = some e' ∧ SameButClawbackAppend e e'

end CombinedExcelToPinecone

namespace CombinedExcelToPinecone

/-- A receiver-role override entry paying 5. -/
def c4ReceiverOvr : List (String × Cell) := [("역할", .cstr "receiver"), ("오버라이드_금액", .cnum 5)]

/-- An originating-side (`fc`) override entry paying 7. -/
def c4FcOvr : List (String × Cell) := [("역할", .cstr "fc"), ("오버라이드_금액", .cnum 7)]

/-- A record holding one entry of each override role. -/
def c4Emp : Employee := { sabon := "1", override_records := [c4ReceiverOvr, c4FcOvr] }

/-- A one-record mapping used to instantiate derivation theorems. -/
def c4Map : EmpMap := [("1", c4Emp)]

/-- A record with one receiver-role override entry paying 9. -/
def c5Emp : Employee := { sabon := "2", override_records := [[("역할", .cstr "receiver"), ("오버라이드_금액", .cnum 9)]] }

/-- Extra originator-role entries appended in the role-filter witness. -/
def c5Extra : List (List (String × Cell)) := [[("역할", .cstr "fc"), ("오버라이드_금액", .cnum 11)]]

/-- The contract dict built from a row carrying only its key column:
every other field takes its coerced default. -/
def emptyRowContract : List (String × Cell) := (mkContract []).toOption.getD []

/-- The profile dict built from a row carrying only its key column. -/
def emptyRowProfile : List (String × Value) := mkProfile []

/-- The summary seed built from a row carrying only its key column. -/
def emptyRowSummary : List (String × ℚ) := (mkSummarySeed []).toOption.getD []

/-- The default (empty) employee record. -/
def c8Emp : Employee := {}

/-- One-record mapping used to instantiate document-generation theorems. -/
def c8Map : EmpMap := [("7", c8Emp)]

/-- First `시책2` row for employee 9. -/
def c9SijaekRow1 : Row := [("FC 사번", .cstr "9"), ("지급액", .cnum 1), ("비고", .cstr "x")]

/-- Second `시책2` row for the same employee, replacing the first. -/
def c9SijaekRow2 : Row := [("FC 사번", .cstr "9"), ("지급액", .cnum 2), ("비고", .cstr "y")]

/-- A minimal `MGR상생(BM)` row for employee 9. -/
def c9MgrRow : Row := [("사번", .cstr "9")]

/-- First retention row for employee 9. -/
def c9RetRow1 : Row := [("FC 사번", .cstr "9"), ("지급액", .cnum 3)]

/-- Second retention row for the same employee, accumulating. -/
def c9RetRow2 : Row := [("FC 사번", .cstr "9"), ("지급액", .cnum 4)]

end CombinedExcelToPinecone

namespace CombinedExcelToPinecone

/-- Every document filed under a group key declares exactly that key. -/
def GroupInv (gs : List (Value × List Doc)) : Prop :=
  ∀ g ∈ gs, ∀ d ∈ g.2, dlookup d.metadata "사번" = some g.1

/-- The per-document step of the vector-building loop. -/
def buildStep (emb : String → List ℚ) (sabon : Value) (acc : List UpsertVector) (d : Doc) :
    Except UploadErr (List UpsertVector) :=
  match dlookup d.metadata "사번" with
  | none => .error .keyErr
  | some ds =>
      if ds = sabon then
        match dlookup d.metadata "사원명" with
        | none => .error .keyErr
        | some nv =>
            .ok (acc ++ [{ id := d.id, values := emb d.text, metadata := vectorMeta d ds nv }])
      else .error (.isolationMismatch ds sabon)

/-- The per-chunk step of the upload loop for one employee's batch. -/
def chunkStep (emb : String → List ℚ) (key : Value) (ns : String)
    (acc2 : List (String × List UpsertVector)) (ch : List Doc) :
    Except UploadErr (List (String × List UpsertVector)) :=
  if 2048 < ch.length then .ok acc2
  else do
    let vs ← buildVectors emb key ch
    return acc2 ++ [(ns, vs)]

/-- The per-employee step of the upload loop. -/
def groupStep (emb : String → List ℚ) (bs : Nat)
    (acc : List (String × List UpsertVector)) (g : Value × List Doc) :
    Except UploadErr (List (String × List UpsertVector)) :=
  if bs = 0 then .error .valueErr
  else (chunkList bs g.2).foldlM (chunkStep emb g.1 ("employee_" ++ pyStrV g.1)) acc

end CombinedExcelToPinecone

namespace CombinedExcelToPinecone

theorem dlookup_dset_self {α : Type} (m : List (String × α)) (k : String) (v : α) :
    dlookup (dset m k v) k = some v := by
  induction m with
  | nil => simp [dset, dlookup]
  | cons hd tl ih =>
      obtain ⟨k', w⟩ := hd
      by_cases h : k' = k
      · simp [dset, h, dlookup]
      · simp [dset, h, dlookup, ih]

theorem dlookup_dset_ne {α : Type} (m : List (String × α)) {k k' : String} (v : α)
    (h : k' ≠ k) : dlookup (dset m k v) k' = dlookup m k' := by
  induction m with
  | nil => simp [dset, dlookup, Ne.symm h]
  | cons hd tl ih =>
      obtain ⟨k₀, w⟩ := hd
      by_cases h0 : k₀ = k
      · subst h0
        simp [dset, dlookup, h, Ne.symm h]
      · by_cases h1 : k₀ = k'
        · subst h1
          simp [dset, h0, dlookup]
        · simp [dset, h0, dlookup, h1, ih]

theorem dset_eq_of_dlookup {α : Type} {m : List (String × α)} {k : String} {v : α}
    (h : dlookup m k = some v) : dset m k v = m := by
  induction m with
  | nil => simp [dlookup] at h
  | cons hd tl ih =>
      obtain ⟨k', w⟩ := hd
      by_cases hk : k' = k
      · subst hk
        simp [dlookup] at h
        simp [dset, h]
      · simp [dlookup, hk] at h
        simp [dset, hk, ih h]

theorem dlookup_append_left {α : Type} {m : List (String × α)} {k : String} {v : α}
    (l : List (String × α)) (h : dlookup m k = some v) : dlookup (m ++ l) k = some v := by
  induction m with
  | nil => simp [dlookup] at h
  | cons hd tl ih =>
      obtain ⟨k', w⟩ := hd
      by_cases hk : k' = k
      · simp [dlookup, hk] at h ⊢
        exact h
      · simp [dlookup, hk] at h ⊢
        exact ih h

theorem dlookup_append_right {α : Type} {m : List (String × α)} {k : String}
    (l : List (String × α)) (h : dlookup m k = none) : dlookup (m ++ l) k = dlookup l k := by
  induction m with
  | nil => simp
  | cons hd tl ih =>
      obtain ⟨k', w⟩ := hd
      by_cases hk : k' = k
      · simp [dlookup, hk] at h
      · simp [dlookup, hk] at h ⊢
        exact ih h

theorem ensure_of_dmem {m : EmpMap} {s : String} (h : dmem m s = true) : ensure m s = m := by
  simp [ensure, h]

theorem ensure_of_not_dmem {m : EmpMap} {s : String} (h : dmem m s = false) :
    ensure m s = m ++ [(s, { sabon := s })] := by
  simp [ensure, h]

theorem dlookup_ensure_self (m : EmpMap) (s : String) :
    dlookup (ensure m s) s = some ((dlookup m s).getD { sabon := s }) := by
  rcases h : dlookup m s with _ | e
  · rw [ensure_of_not_dmem (by simp [dmem, h])]
    rw [dlookup_append_right _ h]
    simp [dlookup]
  · rw [ensure_of_dmem (by simp [dmem, h])]
    simp [h]

theorem dlookup_ensure_of_some {m : EmpMap} {s s' : String} {e : Employee}
    (h : dlookup m s' = some e) : dlookup (ensure m s) s' = some e := by
  by_cases hm : dmem m s
  · rw [ensure_of_dmem hm]
    exact h
  · rw [ensure_of_not_dmem (by simpa using hm)]
    exact dlookup_append_left _ h

theorem dmem_ensure_self (m : EmpMap) (s : String) : dmem (ensure m s) s = true := by
  simp [dmem, dlookup_ensure_self]

theorem dlookup_modifyEmp_self (m : EmpMap) (s : String) (f : Employee → Employee) :
    dlookup (modifyEmp m s f) s = (dlookup m s).map f := by
  induction m with
  | nil => simp [modifyEmp, dlookup]
  | cons hd tl ih =>
      obtain ⟨k, e⟩ := hd
      by_cases hk : k = s
      · simp [modifyEmp, hk, dlookup]
      · simp [modifyEmp, hk, dlookup, ih]

theorem dlookup_modifyEmp_ne (m : EmpMap) {s s' : String} (f : Employee → Employee)
    (h : s' ≠ s) : dlookup (modifyEmp m s f) s' = dlookup m s' := by
  induction m with
  | nil => simp [modifyEmp]
  | cons hd tl ih =>
      obtain ⟨k, e⟩ := hd
      by_cases hk : k = s
      · subst hk
        simp [modifyEmp, dlookup, Ne.symm h]
      · by_cases hk' : k = s'
        · subst hk'
          simp [modifyEmp, hk, dlookup]
        · simp [modifyEmp, hk, dlookup, hk', ih]

theorem dmem_modifyEmp (m : EmpMap) (s s' : String) (f : Employee → Employee) :
    dmem (modifyEmp m s f) s' = dmem m s' := by
  by_cases h : s' = s
  · subst h
    simp [dmem, dlookup_modifyEmp_self]
  · simp [dmem, dlookup_modifyEmp_ne m f h]

theorem totalOE_ensure (m : EmpMap) (s : String) :
    totalOverrideEntries (ensure m s) = totalOverrideEntries m := by
  by_cases h : dmem m s
  · rw [ensure_of_dmem h]
  · rw [ensure_of_not_dmem (by simpa using h)]
    simp [totalOverrideEntries]

theorem totalOE_modify_append (m : EmpMap) (s : String) (o : List (String × Cell))
    (h : dmem m s = true) :
    totalOverrideEntries (modifyEmp m s (appendOverride o)) = totalOverrideEntries m + 1 := by
  induction m with
  | nil => simp [dmem, dlookup] at h
  | cons hd tl ih =>
      obtain ⟨k, e⟩ := hd
      by_cases hk : k = s
      · simp [modifyEmp, hk, totalOverrideEntries, appendOverride]
        ring
      · simp [dmem, dlookup, hk] at h
        simp [modifyEmp, hk, totalOverrideEntries] at ih ⊢
        rw [ih h]
        ring

end CombinedExcelToPinecone

namespace CombinedExcelToPinecone

theorem setDerived_lookup_t1 (sf : List (String × ℚ)) (t1 t2 t3 t4 n1 n2 n3 n4 : ℚ) :
    dlookup (setDerived sf t1 t2 t3 t4 n1 n2 n3 n4) "총_커미션" = some t1 := by
  simp [setDerived, dlookup_dset_self, dlookup_dset_ne]

theorem setDerived_lookup_t2 (sf : List (String × ℚ)) (t1 t2 t3 t4 n1 n2 n3 n4 : ℚ) :
    dlookup (setDerived sf t1 t2 t3 t4 n1 n2 n3 n4) "총_오버라이드" = some t2 := by
  simp [setDerived, dlookup_dset_self, dlookup_dset_ne]

theorem setDerived_lookup_t3 (sf : List (String × ℚ)) (t1 t2 t3 t4 n1 n2 n3 n4 : ℚ) :
    dlookup (setDerived sf t1 t2 t3 t4 n1 n2 n3 n4) "총_시책금액" = some t3 := by
  simp [setDerived, dlookup_dset_self, dlookup_dset_ne]

theorem setDerived_lookup_t4 (sf : List (String × ℚ)) (t1 t2 t3 t4 n1 n2 n3 n4 : ℚ) :
    dlookup (setDerived sf t1 t2 t3 t4 n1 n2 n3 n4) "총_환수금액" = some t4 := by
  simp [setDerived, dlookup_dset_self, dlookup_dset_ne]

theorem setDerived_lookup_n1 (sf : List (String × ℚ)) (t1 t2 t3 t4 n1 n2 n3 n4 : ℚ) :
    dlookup (setDerived sf t1 t2 t3 t4 n1 n2 n3 n4) "계약건수" = some n1 := by
  simp [setDerived, dlookup_dset_self, dlookup_dset_ne]

theorem setDerived_lookup_n2 (sf : List (String × ℚ)) (t1 t2 t3 t4 n1 n2 n3 n4 : ℚ) :
    dlookup (setDerived sf t1 t2 t3 t4 n1 n2 n3 n4) "오버라이드건수" = some n2 := by
  simp [setDerived, dlookup_dset_self, dlookup_dset_ne]

theorem setDerived_lookup_n3 (sf : List (String × ℚ)) (t1 t2 t3 t4 n1 n2 n3 n4 : ℚ) :
    dlookup (setDerived sf t1 t2 t3 t4 n1 n2 n3 n4) "시책계약건수" = some n3 := by
  simp [setDerived, dlookup_dset_self, dlookup_dset_ne]

theorem setDerived_lookup_n4 (sf : List (String × ℚ)) (t1 t2 t3 t4 n1 n2 n3 n4 : ℚ) :
    dlookup (setDerived sf t1 t2 t3 t4 n1 n2 n3 n4) "환수건수" = some n4 := by
  simp [setDerived, dlookup_dset_self, dlookup_dset_ne]

/-- Re-running the eight derivation assignments with the same values is
the identity on the summary mapping. -/
theorem setDerived_setDerived (sf : List (String × ℚ)) (t1 t2 t3 t4 n1 n2 n3 n4 : ℚ) :
    setDerived (setDerived sf t1 t2 t3 t4 n1 n2 n3 n4) t1 t2 t3 t4 n1 n2 n3 n4 =
      setDerived sf t1 t2 t3 t4 n1 n2 n3 n4 := by
  conv_lhs => rw [setDerived]
  rw [dset_eq_of_dlookup (setDerived_lookup_t1 sf t1 t2 t3 t4 n1 n2 n3 n4),
      dset_eq_of_dlookup (setDerived_lookup_t2 sf t1 t2 t3 t4 n1 n2 n3 n4),
      dset_eq_of_dlookup (setDerived_lookup_t3 sf t1 t2 t3 t4 n1 n2 n3 n4),
      dset_eq_of_dlookup (setDerived_lookup_t4 sf t1 t2 t3 t4 n1 n2 n3 n4),
      dset_eq_of_dlookup (setDerived_lookup_n1 sf t1 t2 t3 t4 n1 n2 n3 n4),
      dset_eq_of_dlookup (setDerived_lookup_n2 sf t1 t2 t3 t4 n1 n2 n3 n4),
      dset_eq_of_dlookup (setDerived_lookup_n3 sf t1 t2 t3 t4 n1 n2 n3 n4),
      dset_eq_of_dlookup (setDerived_lookup_n4 sf t1 t2 t3 t4 n1 n2 n3 n4)]

theorem deriveFin_idem (e : Employee) : deriveFin (deriveFin e) = deriveFin e :=
  congrArg (fun sf => { e with summary_financials := sf })
    (setDerived_setDerived e.summary_financials (commissionTotal e) (overrideTotal e)
      (policyTotal e) (clawbackTotal e) (e.commission_contracts.length : ℚ)
      ((e.override_records.filter isReceiver).length : ℚ)
      (e.policy_contracts.length : ℚ) (e.clawback_records.length : ℚ))

theorem deriveFin_dget_comm (e : Employee) :
    dget (deriveFin e).summary_financials "총_커미션" 0 = commissionTotal e := by
  simp [deriveFin, dget, setDerived_lookup_t1]

theorem deriveFin_dget_ovr (e : Employee) :
    dget (deriveFin e).summary_financials "총_오버라이드" 0 = overrideTotal e := by
  simp [deriveFin, dget, setDerived_lookup_t2]

theorem deriveFin_dget_pol (e : Employee) :
    dget (deriveFin e).summary_financials "총_시책금액" 0 = policyTotal e := by
  simp [deriveFin, dget, setDerived_lookup_t3]

theorem deriveFin_dget_clw (e : Employee) :
    dget (deriveFin e).summary_financials "총_환수금액" 0 = clawbackTotal e := by
  simp [deriveFin, dget, setDerived_lookup_t4]

theorem deriveFin_dget_cnt1 (e : Employee) :
    dget (deriveFin e).summary_financials "계약건수" 0 = (e.commission_contracts.length : ℚ) := by
  simp [deriveFin, dget, setDerived_lookup_n1]

theorem deriveFin_dget_cnt2 (e : Employee) :
    dget (deriveFin e).summary_financials "오버라이드건수" 0 =
      ((e.override_records.filter isReceiver).length : ℚ) := by
  simp [deriveFin, dget, setDerived_lookup_n2]

theorem deriveFin_dget_cnt3 (e : Employee) :
    dget (deriveFin e).summary_financials "시책계약건수" 0 = (e.policy_contracts.length : ℚ) := by
  simp [deriveFin, dget, setDerived_lookup_n3]

theorem deriveFin_dget_cnt4 (e : Employee) :
    dget (deriveFin e).summary_financials "환수건수" 0 = (e.clawback_records.length : ℚ) := by
  simp [deriveFin, dget, setDerived_lookup_n4]

theorem dlookup_calcAgg (m : EmpMap) (s : String) :
    dlookup (calculate_aggregated_financials m) s = (dlookup m s).map deriveFin := by
  induction m with
  | nil => simp [calculate_aggregated_financials, dlookup]
  | cons hd tl ih =>
      obtain ⟨k, e⟩ := hd
      by_cases hk : k = s
      · simp [calculate_aggregated_financials, dlookup, hk]
      · simpa [calculate_aggregated_financials, dlookup, hk] using ih

end CombinedExcelToPinecone

namespace CombinedExcelToPinecone

/-- C4: the derivation pass computes each derived summary field as a
pure function of the four category lists, its results exactly equal the
list sums and counts, and running it twice yields identical
`summaryFinancials`. -/
theorem c4_derivation_pure_and_idempotent (m : EmpMap) :
    calculate_aggregated_financials (calculate_aggregated_financials m) =
      calculate_aggregated_financials m
    ∧ (∀ s e, dlookup (calculate_aggregated_financials m) s = some e →
        dget e.summary_financials "총_커미션" 0 = commissionTotal e
        ∧ dget e.summary_financials "총_오버라이드" 0 = overrideTotal e
        ∧ dget e.summary_financials "총_시책금액" 0 = policyTotal e
        ∧ dget e.summary_financials "총_환수금액" 0 = clawbackTotal e
        ∧ dget e.summary_financials "계약건수" 0 = (e.commission_contracts.length : ℚ)
        ∧ dget e.summary_financials "오버라이드건수" 0 = ((e.override_records.filter isReceiver).length : ℚ)
        ∧ dget e.summary_financials "시책계약건수" 0 = (e.policy_contracts.length : ℚ)
        ∧ dget e.summary_financials "환수건수" 0 = (e.clawback_records.length : ℚ))
    ∧ (∀ e1 e2 : Employee, e1.commission_contracts = e2.commission_contracts →
        e1.override_records = e2.override_records →
        e1.policy_contracts = e2.policy_contracts →
        e1.clawback_records = e2.clawback_records →
        commissionTotal e1 = commissionTotal e2 ∧ overrideTotal e1 = overrideTotal e2
        ∧ policyTotal e1 = policyTotal e2 ∧ clawbackTotal e1 = clawbackTotal e2) := by
  refine ⟨?_, ?_, ?_⟩
  · unfold calculate_aggregated_financials
    rw [List.map_map]
    simp [Function.comp_def, deriveFin_idem]
  · intro s e h
    rw [dlookup_calcAgg] at h
    rcases hm : dlookup m s with _ | e0
    · rw [hm] at h
      simp at h
    · rw [hm] at h
      simp only [Option.map_some'] at h
      obtain rfl : deriveFin e0 = e := by exact Option.some.inj h
      exact ⟨deriveFin_dget_comm e0, deriveFin_dget_ovr e0, deriveFin_dget_pol e0,
             deriveFin_dget_clw e0, deriveFin_dget_cnt1 e0, deriveFin_dget_cnt2 e0,
             deriveFin_dget_cnt3 e0, deriveFin_dget_cnt4 e0⟩
  · intro e1 e2 h1 h2 h3 h4
    refine ⟨?_, ?_, ?_, ?_⟩
    · rw [commissionTotal, commissionTotal, h1]
    · rw [overrideTotal, overrideTotal, h2]
    · rw [policyTotal, policyTotal, h3]
    · rw [clawbackTotal, clawbackTotal, h4]

theorem c4_derivation_witness :
    calculate_aggregated_financials (calculate_aggregated_financials c4Map) =
      calculate_aggregated_financials c4Map
    ∧ dget (deriveFin c4Emp).summary_financials "총_오버라이드" 0 = overrideTotal (deriveFin c4Emp)
    ∧ commissionTotal c4Emp = commissionTotal c4Emp :=
  ⟨(c4_derivation_pure_and_idempotent c4Map).1,
   ((c4_derivation_pure_and_idempotent c4Map).2.1 "1" (deriveFin c4Emp) (by rfl)).2.1,
   ((c4_derivation_pure_and_idempotent c4Map).2.2 c4Emp c4Emp rfl rfl rfl rfl).1⟩

/-- C5: the derived total override equals the sum of the amount field
over exactly the receiver-role entries, the derived override count
counts only receiver-role entries, and non-receiver entries contribute
zero to the total. -/
theorem c5_override_receiver_filtered_sum (e : Employee) :
    dget (deriveFin e).summary_financials "총_오버라이드" 0 =
      ((e.override_records.filter isReceiver).map
        (fun o => (dget o "오버라이드_금액" (Cell.cint 0)).toQ)).sum
    ∧ dget (deriveFin e).summary_financials "오버라이드건수" 0 =
      ((e.override_records.filter isReceiver).length : ℚ)
    ∧ ∀ extra : List (List (String × Cell)), (∀ o ∈ extra, isReceiver o = false) →
        dget (deriveFin
            { e with override_records := e.override_records ++ extra }).summary_financials
          "총_오버라이드" 0 =
        dget (deriveFin e).summary_financials "총_오버라이드" 0 := by
  refine ⟨?_, deriveFin_dget_cnt2 e, ?_⟩
  · rw [deriveFin_dget_ovr]
    rfl
  · intro extra hex
    rw [deriveFin_dget_ovr, deriveFin_dget_ovr]
    have hnil : extra.filter isReceiver = [] :=
      List.filter_eq_nil_iff.mpr (fun o ho => by simp [hex o ho])
    simp [overrideTotal, sumField, List.filter_append, hnil]

theorem c5_override_witness :
    dget (deriveFin { c5Emp with override_records := c5Emp.override_records ++ c5Extra }).summary_financials
        "총_오버라이드" 0 =
      dget (deriveFin c5Emp).summary_financials "총_오버라이드" 0 :=
  (c5_override_receiver_filtered_sum c5Emp).2.2 c5Extra (by decide)

end CombinedExcelToPinecone

namespace CombinedExcelToPinecone

theorem pyRound0_intCast (n : ℤ) : pyRound0 ((n : ℚ)) = n := by
  simp [pyRound0]

theorem fmtW_intCast (n : ℤ) :
    fmtW ((n : ℚ)) =
      (if n < 0 then "-" else "") ++
        String.mk (groupRev (toString n.natAbs).toList.reverse).reverse := by
  simp [fmtW, pyRound0_intCast]

/-- C7: each per-category section of the formatted text is omitted
entirely when its list is empty, and for commission entries across
insurers A (2 entries, 100) and B (1 entry, 50) the insurer breakdown
shows exactly two groups in first-seen order with counts 2/1 and totals
100/50, while the category total shown is 150, the sum over all
commission entries. -/
theorem c7_sections_and_grouping :
    (∀ e : Employee, e.commission_contracts = [] → commissionSection e = [])
    ∧ (∀ e : Employee, e.override_records = [] → overrideSection e = [])
    ∧ (∀ e : Employee, e.policy_contracts = [] → policySection e = [])
    ∧ (∀ e : Employee, e.additional_allowances = [] → allowanceSection e = [])
    ∧ (∀ e : Employee, e.clawback_records = [] → clawbackSection e = [])
    ∧ (∀ e : Employee, e.performance_records = [] → performanceSection e = [])
    ∧ commissionSection c7Emp =
        ["\n## 수수료 계약: 3건", "총 수수료: 150원", "보험사별 계약:",
         "  - A: 2건, 100원", "  - B: 1건, 50원"]
    ∧ sumField c7Emp.commission_contracts "지급수수료_합계" = 150
    ∧ to_text_for_embedding c7Emp =
        "\n## 수수료 계약: 3건\n총 수수료: 150원\n보험사별 계약:\n  - A: 2건, 100원\n  - B: 1건, 50원" := by
  have hsum : sumField c7Emp.commission_contracts "지급수수료_합계" = ((150 : ℤ) : ℚ) := by
    simp [sumField, c7Emp, c7ContractA1, c7ContractA2, c7ContractB, dget, dlookup, Cell.toQ]
    norm_num
  have hA : sumField [c7ContractA1, c7ContractA2] "지급수수료_합계" = ((100 : ℤ) : ℚ) := by
    simp [sumField, c7ContractA1, c7ContractA2, dget, dlookup, Cell.toQ]
    norm_num
  have hB : sumField [c7ContractB] "지급수수료_합계" = ((50 : ℤ) : ℚ) := by
    simp [sumField, c7ContractB, dget, dlookup, Cell.toQ]
  have hgrp : groupByKey (fun c => dget c "보험사" (.cstr "")) c7Emp.commission_contracts =
      [(Cell.cstr "A", [c7ContractA1, c7ContractA2]), (Cell.cstr "B", [c7ContractB])] := by
    decide
  have hsec : commissionSection c7Emp =
      ["\n## 수수료 계약: 3건", "총 수수료: 150원", "보험사별 계약:",
       "  - A: 2건, 100원", "  - B: 1건, 50원"] := by
    simp only [commissionSection, show c7Emp.commission_contracts.isEmpty = false from rfl,
      Bool.false_eq_true, if_false, hgrp, hsum, List.map_cons, List.map_nil]
    rw [hA, hB, fmtW_intCast, fmtW_intCast, fmtW_intCast]
    decide
  refine ⟨?_, ?_, ?_, ?_, ?_, ?_, hsec, ?_, ?_⟩
  · intro e h
    simp [commissionSection, h]
  · intro e h
    simp [overrideSection, h]
  · intro e h
    simp [policySection, h]
  · intro e h
    simp [allowanceSection, h]
  · intro e h
    simp [clawbackSection, h]
  · intro e h
    simp [performanceSection, h]
  · rw [hsum]
    norm_num
  · rw [to_text_for_embedding, show profileSection c7Emp = [] from rfl,
        show summarySection c7Emp = [] from rfl, show overrideSection c7Emp = [] from rfl,
        show policySection c7Emp = [] from rfl, show allowanceSection c7Emp = [] from rfl,
        show clawbackSection c7Emp = [] from rfl, show performanceSection c7Emp = [] from rfl,
        hsec]
    decide

theorem c7_sections_witness :
    commissionSection c8Emp = [] ∧ overrideSection c8Emp = [] ∧ policySection c8Emp = []
    ∧ allowanceSection c8Emp = [] ∧ clawbackSection c8Emp = []
    ∧ performanceSection c8Emp = [] :=
  ⟨c7_sections_and_grouping.1 c8Emp rfl, c7_sections_and_grouping.2.1 c8Emp rfl,
   c7_sections_and_grouping.2.2.1 c8Emp rfl, c7_sections_and_grouping.2.2.2.1 c8Emp rfl,
   c7_sections_and_grouping.2.2.2.2.1 c8Emp rfl, c7_sections_and_grouping.2.2.2.2.2.1 c8Emp rfl⟩

/-- C8: document generation yields exactly one `employee_profile`
document per record, id `<key>_profile`, metadata identifier equal to
the record's key in the mapping, and (for records whose accessed
profile fields are scalars, as all pipeline records are) only scalar
metadata values. -/
theorem c8_profile_documents (m : EmpMap) :
    (generate_employee_centric_documents m).length = m.length
    ∧ generate_employee_centric_documents m = m.map (fun p => mkProfileDoc p.1 p.2)
    ∧ ∀ (s : String) (e : Employee),
        (mkProfileDoc s e).id = s ++ "_profile"
        ∧ (mkProfileDoc s e).doc_type = "employee_profile"
        ∧ dlookup (mkProfileDoc s e).metadata "사번" = some (Value.vcell (Cell.cstr s))
        ∧ ((pget e "사원명").isScalar = true → (pget e "직종").isScalar = true →
           (pget e "소속").isScalar = true → (pget e "위촉일").isScalar = true →
           ∀ kv ∈ (mkProfileDoc s e).metadata, kv.2.isScalar = true) := by
  refine ⟨?_, rfl, ?_⟩
  · simp [generate_employee_centric_documents]
  · intro s e
    refine ⟨rfl, rfl, by simp [mkProfileDoc, dlookup], ?_⟩
    intro h1 h2 h3 h4 kv hkv
    simp only [mkProfileDoc, List.mem_cons, List.not_mem_nil, or_false] at hkv
    rcases hkv with rfl | rfl | rfl | rfl | rfl | rfl | rfl | rfl | rfl
    · rfl
    · exact h1
    · exact h2
    · exact h3
    · exact h4
    · rfl
    · rfl
    · rfl
    · rfl

theorem c8_profile_witness :
    (generate_employee_centric_documents c8Map).length = c8Map.length
    ∧ (mkProfileDoc "7" c8Emp).id = "7_profile"
    ∧ (mkProfileDoc "7" c8Emp).doc_type = "employee_profile"
    ∧ dlookup (mkProfileDoc "7" c8Emp).metadata "사번" = some (Value.vcell (Cell.cstr "7"))
    ∧ (mkProfileDoc "7" c8Emp).metadata.all (fun kv => kv.2.isScalar) = true := by
  have h := c8_profile_documents c8Map
  have h2 := h.2.2 "7" c8Emp
  refine ⟨h.1, h2.1, h2.2.1, h2.2.2.1, ?_⟩
  have hs := h2.2.2.2 (by rfl) (by rfl) (by rfl) (by rfl)
  exact List.all_eq_true.mpr (fun kv hkv => hs kv hkv)

end CombinedExcelToPinecone

namespace CombinedExcelToPinecone

theorem processCommissionRow_keyRow (m : EmpMap) (c : Cell) :
    processCommissionRow m [("지급사원번호", c)] =
      .ok (modifyEmp (ensure m (pyStr c)) (pyStr c) (appendContract emptyRowContract)) := rfl

theorem processIndividualRow_keyRow (m : EmpMap) (c : Cell) :
    processIndividualRow m [("사번", c)] =
      .ok (modifyEmp (ensure m (pyStr c)) (pyStr c) (fun e =>
        { e with sabon := pyStr c, employee_profile := emptyRowProfile,
                 summary_financials := emptyRowSummary })) := rfl

/-- C2 amended: the employee identifier of every source row is
normalised with `str(...)`. An identifier appearing as the int `n` in
one source row renders as the digit string of `n` and resolves to the
same record as the string of `n` from another row — processing both
rows yields a single record holding both contributions. A float-typed
identifier, however, renders with a trailing `.0` and therefore forms a
key distinct from the digit string. -/
theorem c2_identifier_normalization (n : Nat) :
    pyStr (Cell.cint (n : Int)) = toString n
    ∧ processCommissionRows [commRowInt n, commRowStr n] [] =
        .ok [(toString n,
              { sabon := toString n,
                commission_contracts := [emptyRowContract, emptyRowContract] })]
    ∧ processIndividualRows [rosterRowInt n, rosterRowStr n] [] =
        .ok [(toString n,
              { sabon := toString n, employee_profile := emptyRowProfile,
                summary_financials := emptyRowSummary })]
    ∧ pyStr (Cell.cnum (n : ℚ)) = toString n ++ ".0" := by
  have hk : toString ((n : ℕ) : ℤ) = toString n := rfl
  refine ⟨rfl, ?_, ?_, ?_⟩
  · simp [processCommissionRows, List.foldlM, commRowInt, commRowStr,
      processCommissionRow_keyRow, pyStr, ensure, dmem, dlookup, modifyEmp, appendContract,
      Bind.bind, Except.bind, Pure.pure, Except.pure, hk]
  · simp [processIndividualRows, List.foldlM, rosterRowInt, rosterRowStr,
      processIndividualRow_keyRow, pyStr, ensure, dmem, dlookup, modifyEmp,
      Bind.bind, Except.bind, Pure.pure, Except.pure, hk]
  · have hnn : ¬((n : ℤ) < 0) := by omega
    simp [pyStr, floatStr, Rat.num_natCast, Rat.den_natCast, Nat.mod_one, Nat.div_one, hnn]

/-- C2 refuted as stated: an identifier appearing as the float `12345`
(the cell type pandas yields for a numeric column that also contains
blanks) is normalised by `str(...)` to `"12345.0"`, not to the
canonical digit string, so it does not resolve to the same record as
the string `"12345"` — processing one row of each yields two separate
records, where the claim demands one. -/
theorem c2_counterexample_float_identifier :
    pyStr (Cell.cnum 12345) = "12345.0"
    ∧ pyStr (Cell.cnum 12345) ≠ pyStr (Cell.cstr "12345")
    ∧ processCommissionRows [commRowNum 12345, commRowStr 12345] [] =
        .ok [("12345.0", { sabon := "12345.0", commission_contracts := [emptyRowContract] }),
             ("12345", { sabon := "12345", commission_contracts := [emptyRowContract] })] :=
  ⟨rfl, by decide, rfl⟩

end CombinedExcelToPinecone

namespace CombinedExcelToPinecone

theorem mkOverride_fields {row : Row} {ovr : List (String × Cell)}
    (h : mkOverride row = .ok ovr) :
    dget ovr "역할" .cnone = .cstr "receiver"
    ∧ dget ovr "FC_사번" .cnone = strGet row "[FC] 대상자사번"
    ∧ dget ovr "FC_대상자" .cnone = getC row "[FC] 대상자" := by
  unfold mkOverride at h
  rcases hn : mkOverrideNums row with _ | t
  · rw [hn] at h
    cases h
  · rw [hn] at h
    obtain ⟨a, b, c, d, e, f, g, h2, i⟩ := t
    injection h with h
    subst h
    exact ⟨rfl, rfl, rfl⟩

theorem fcCopy_fields (ovr : List (String × Cell)) (rs : String) (rn : Cell) :
    dget (fcCopy ovr rs rn) "역할" .cnone = .cstr "fc"
    ∧ dget (fcCopy ovr rs rn) "수령자_사번" .cnone = .cstr rs
    ∧ dget (fcCopy ovr rs rn) "수령자_이름" .cnone = rn := by
  refine ⟨?_, ?_, ?_⟩ <;>
    simp [fcCopy, dget, dlookup_dset_self, dlookup_dset_ne]

theorem totalOE_double_append (m : EmpMap) (rk fk : String)
    (o1 o2 : List (String × Cell)) :
    totalOverrideEntries
        (modifyEmp (ensure (modifyEmp (ensure m rk) rk (appendOverride o1)) fk) fk
          (appendOverride o2)) =
      totalOverrideEntries m + 2 := by
  rw [totalOE_modify_append _ _ _ (by rw [dmem_ensure_self]), totalOE_ensure,
      totalOE_modify_append _ _ _ (by rw [dmem_ensure_self]), totalOE_ensure]

/-- C6 amended: every successfully processed override source row
appends exactly two entries across the record set — the receiver-side
entry tagged `receiver` under the payee's record and a copy tagged
`fc` (the originator role) under the FC's record — each carrying the
counterpart's identifier and display name. -/
theorem c6_amended_override_double_entry (m : EmpMap) (row : Row) (m' : EmpMap)
    (h : processOverrideRow m row = .ok m') :
    ∃ (rc fc : Cell) (ovr : List (String × Cell)),
      dlookup row "[오버라이드] 대상자사번" = some rc
      ∧ dlookup row "[FC] 대상자사번" = some fc
      ∧ mkOverride row = .ok ovr
      ∧ m' = modifyEmp
          (ensure (modifyEmp (ensure m (pyStr rc)) (pyStr rc) (appendOverride ovr)) (pyStr fc))
          (pyStr fc)
          (appendOverride (fcCopy ovr (pyStr rc) (getC row "[오버라이드] 대상자")))
      ∧ totalOverrideEntries m' = totalOverrideEntries m + 2
      ∧ dget ovr "역할" .cnone = .cstr "receiver"
      ∧ dget ovr "FC_사번" .cnone = .cstr (pyStr fc)
      ∧ dget ovr "FC_대상자" .cnone = getC row "[FC] 대상자"
      ∧ dget (fcCopy ovr (pyStr rc) (getC row "[오버라이드] 대상자")) "역할" .cnone = .cstr "fc"
      ∧ dget (fcCopy ovr (pyStr rc) (getC row "[오버라이드] 대상자")) "수령자_사번" .cnone
          = .cstr (pyStr rc)
      ∧ dget (fcCopy ovr (pyStr rc) (getC row "[오버라이드] 대상자")) "수령자_이름" .cnone
          = getC row "[오버라이드] 대상자" := by
  rcases h1 : dlookup row "[오버라이드] 대상자사번" with _ | rc
  · simp only [processOverrideRow, idxC, h1, Bind.bind, Except.bind] at h
    exact Except.noConfusion h
  · rcases h2 : mkOverride row with _ | ovr
    · simp only [processOverrideRow, idxC, h1, h2, Bind.bind, Except.bind] at h
      exact Except.noConfusion h
    · rcases h3 : dlookup row "[FC] 대상자사번" with _ | fc
      · simp only [processOverrideRow, idxC, h1, h2, h3, Bind.bind, Except.bind] at h
        exact Except.noConfusion h
      · simp only [processOverrideRow, idxC, h1, h2, h3, Bind.bind, Except.bind,
          Pure.pure, Except.pure, Except.ok.injEq] at h
        obtain ⟨hr, hfn, hfo⟩ := mkOverride_fields h2
        refine ⟨rc, fc, ovr, rfl, rfl, rfl, h.symm, ?_, hr, ?_, hfo,
          (fcCopy_fields ovr (pyStr rc) (getC row "[오버라이드] 대상자")).1,
          (fcCopy_fields ovr (pyStr rc) (getC row "[오버라이드] 대상자")).2.1,
          (fcCopy_fields ovr (pyStr rc) (getC row "[오버라이드] 대상자")).2.2⟩
        · rw [← h]
          exact totalOE_double_append m (pyStr rc) (pyStr fc) ovr _
        · rw [hfn]
          simp [strGet, getC, dget, h3]

theorem c6_amended_witness :
    ∃ (rc fc : Cell) (ovr : List (String × Cell)),
      dlookup c6Row "[오버라이드] 대상자사번" = some rc
      ∧ dlookup c6Row "[FC] 대상자사번" = some fc
      ∧ mkOverride c6Row = .ok ovr
      ∧ (processOverrideRow [] c6Row).toOption.getD [] = modifyEmp
          (ensure (modifyEmp (ensure [] (pyStr rc)) (pyStr rc) (appendOverride ovr)) (pyStr fc))
          (pyStr fc)
          (appendOverride (fcCopy ovr (pyStr rc) (getC c6Row "[오버라이드] 대상자")))
      ∧ totalOverrideEntries ((processOverrideRow [] c6Row).toOption.getD []) =
          totalOverrideEntries [] + 2
      ∧ dget ovr "역할" .cnone = .cstr "receiver"
      ∧ dget ovr "FC_사번" .cnone = .cstr (pyStr fc)
      ∧ dget ovr "FC_대상자" .cnone = getC c6Row "[FC] 대상자"
      ∧ dget (fcCopy ovr (pyStr rc) (getC c6Row "[오버라이드] 대상자")) "역할" .cnone = .cstr "fc"
      ∧ dget (fcCopy ovr (pyStr rc) (getC c6Row "[오버라이드] 대상자")) "수령자_사번" .cnone
          = .cstr (pyStr rc)
      ∧ dget (fcCopy ovr (pyStr rc) (getC c6Row "[오버라이드] 대상자")) "수령자_이름" .cnone
          = getC c6Row "[오버라이드] 대상자" := by
  obtain ⟨rc, fc, ovr, a1, a2, a3, a4, a5, a6, a7, a8, a9, a10, a11⟩ :=
    c6_amended_override_double_entry [] c6Row ((processOverrideRow [] c6Row).toOption.getD [])
      (by rfl)
  exact ⟨rc, fc, ovr, a1, a2, a3, a4, a5, a6, a7, a8, a9, a10, a11⟩

/-- C6 refuted as stated: the originator-side entry carries the role
tag `fc`, not `originator` — processing a concrete override row
succeeds, yet no entry anywhere in the record set carries the role tag
`originator`, while an `fc`-tagged entry exists. -/
theorem c6_counterexample_role_tag :
    (processOverrideRow [] c6Row).isOk = true
    ∧ ((processOverrideRow [] c6Row).toOption.getD []).all
        (fun p => p.2.override_records.all
          (fun o => !(dget o "역할" Cell.cnone == Cell.cstr "originator"))) = true
    ∧ ((processOverrideRow [] c6Row).toOption.getD []).any
        (fun p => p.2.override_records.any
          (fun o => dget o "역할" Cell.cnone == Cell.cstr "fc")) = true := by
  refine ⟨?_, ?_, ?_⟩ <;> decide

end CombinedExcelToPinecone

namespace CombinedExcelToPinecone

theorem stepSijaek2_ok (cols : List String) (m : EmpMap) (row : Row) (c : Cell) (q : ℚ)
    (hcols : "FC 사번" ∈ cols) (hc : dlookup row "FC 사번" = some c)
    (hn : notna c = true) (hq : getF row "지급액" = .ok q) :
    stepSijaek2 cols m row = .ok (modifyEmp (ensure m (pyStr c)) (pyStr c)
      (setAllowance "시책2_지사시책" (.vdict [("금액", .cnum q), ("비고", getC row "비고")]))) := by
  simp [stepSijaek2, hcols, hc, hn, hq, getC, dget, Pure.pure, Except.pure]

theorem stepSonboExt_ok (cols : List String) (m : EmpMap) (row : Row) (c : Cell) (q : ℚ)
    (hcols : "FC 사번" ∈ cols) (hc : dlookup row "FC 사번" = some c)
    (hn : notna c = true) (hq : getF row "손보시책 Ext" = .ok q) :
    stepSonboExt cols m row = .ok (modifyEmp (ensure m (pyStr c)) (pyStr c)
      (setAllowance "손보EXT" (.vdict [("금액", .cnum q), ("비고", getC row "비고")]))) := by
  simp [stepSonboExt, hcols, hc, hn, hq, getC, dget, Pure.pure, Except.pure]

theorem stepSinipIp_ok (cols : List String) (m : EmpMap) (row : Row) (c : Cell) (q1 q2 q3 : ℚ)
    (hcols : "FC 사번" ∈ cols) (hc : dlookup row "FC 사번" = some c)
    (hn : notna c = true) (hq1 : getF row "지급액" = .ok q1)
    (hq2 : getF row "모집(환산)업적" = .ok q2) (hq3 : getF row "지급대상액" = .ok q3) :
    stepSinipIp cols m row = .ok (modifyEmp (ensure m (pyStr c)) (pyStr c)
      (setAllowance "신입IP수당"
        (.vdict [("금액", .cnum q1), ("모집업적", .cnum q2), ("지급대상액", .cnum q3)]))) := by
  simp [stepSinipIp, sinipNums, hcols, hc, hn, hq1, hq2, hq3, getC, dget, Bind.bind, Except.bind, Pure.pure, Except.pure]

theorem stepMgr_ok (cols : List String) (m : EmpMap) (row : Row) (c : Cell) (q1 q2 q3 q4 : ℚ)
    (hcols : "사번" ∈ cols) (hc : dlookup row "사번" = some c)
    (hn : notna c = true) (hq1 : getF row "활성화 지원금" = .ok q1)
    (hq2 : getF row "총 모집업적\n(생,손보)" = .ok q2)
    (hq3 : getF row "손보모집업적(①)" = .ok q3) (hq4 : getF row "지급율(%)" = .ok q4) :
    stepMgr cols m row = .ok (modifyEmp (ensure m (pyStr c)) (pyStr c)
      (setAllowance "MGR상생"
        (.vdict [("금액", .cnum q1), ("총_모집업적", .cnum q2),
                 ("손보모집업적", .cnum q3), ("지급율", .cnum q4)]))) := by
  simp [stepMgr, mgrNums, hcols, hc, hn, hq1, hq2, hq3, hq4, getC, dget, Bind.bind, Except.bind, Pure.pure, Except.pure]

theorem stepRetention_ok (cols : List String) (m : EmpMap) (row : Row) (c : Cell)
    (hc1 : Int) (rate amt : ℚ)
    (hcols : "FC 사번" ∈ cols) (hc : dlookup row "FC 사번" = some c)
    (hn : notna c = true) (hi : getI row "회차" = .ok hc1)
    (hq1 : getF row "추가지급율" = .ok rate) (hq2 : getF row "지급액" = .ok amt) :
    stepRetention cols m row = .ok (modifyEmp (ensure m (pyStr c)) (pyStr c)
      (appendRetention (mkRetention row hc1 rate amt))) := by
  simp [stepRetention, retNums, hcols, hc, hn, hi, hq1, hq2, getC, dget, Bind.bind, Except.bind, Pure.pure, Except.pure]

theorem dlookup_modify_setAllowance (m : EmpMap) (s key : String) (v : Value) :
    ∃ e, dlookup (modifyEmp (ensure m s) s (setAllowance key v)) s = some e
      ∧ dlookup e.additional_allowances key = some v := by
  rw [dlookup_modifyEmp_self, dlookup_ensure_self]
  exact ⟨_, rfl, by simp [setAllowance, dlookup_dset_self]⟩

end CombinedExcelToPinecone

namespace CombinedExcelToPinecone

/-- C9: each cardinality-one allowance category (`시책2_지사시책`,
`손보EXT`, `신입IP수당`, `MGR상생`) maps to a single amount-bearing
structure — a later row for the same employee replaces the earlier one —
while the per-policy retention category `13회차유지` maps to an ordered
list accumulating one appended entry per matching source row. -/
theorem c9_allowance_cardinality :
    (∀ (cols : List String) (m : EmpMap) (r1 r2 : Row) (c : Cell) (q1 q2 : ℚ),
      "FC 사번" ∈ cols →
      dlookup r1 "FC 사번" = some c → dlookup r2 "FC 사번" = some c → notna c = true →
      getF r1 "지급액" = .ok q1 → getF r2 "지급액" = .ok q2 →
      ∃ e, dlookup (foldCaught (stepSijaek2 cols) m [r1, r2]) (pyStr c) = some e
        ∧ dlookup e.additional_allowances "시책2_지사시책" =
            some (.vdict [("금액", .cnum q2), ("비고", getC r2 "비고")]))
    ∧ (∀ (cols : List String) (m : EmpMap) (r1 r2 : Row) (c : Cell) (q1 q2 : ℚ),
      "FC 사번" ∈ cols →
      dlookup r1 "FC 사번" = some c → dlookup r2 "FC 사번" = some c → notna c = true →
      getF r1 "손보시책 Ext" = .ok q1 → getF r2 "손보시책 Ext" = .ok q2 →
      ∃ e, dlookup (foldCaught (stepSonboExt cols) m [r1, r2]) (pyStr c) = some e
        ∧ dlookup e.additional_allowances "손보EXT" =
            some (.vdict [("금액", .cnum q2), ("비고", getC r2 "비고")]))
    ∧ (∀ (cols : List String) (m : EmpMap) (r1 r2 : Row) (c : Cell) (a1 b1 d1 a2 b2 d2 : ℚ),
      "FC 사번" ∈ cols →
      dlookup r1 "FC 사번" = some c → dlookup r2 "FC 사번" = some c → notna c = true →
      getF r1 "지급액" = .ok a1 → getF r1 "모집(환산)업적" = .ok b1 → getF r1 "지급대상액" = .ok d1 →
      getF r2 "지급액" = .ok a2 → getF r2 "모집(환산)업적" = .ok b2 → getF r2 "지급대상액" = .ok d2 →
      ∃ e, dlookup (foldCaught (stepSinipIp cols) m [r1, r2]) (pyStr c) = some e
        ∧ dlookup e.additional_allowances "신입IP수당" =
            some (.vdict [("금액", .cnum a2), ("모집업적", .cnum b2), ("지급대상액", .cnum d2)]))
    ∧ (∀ (cols : List String) (m : EmpMap) (r1 r2 : Row) (c : Cell) (a1 b1 d1 f1 a2 b2 d2 f2 : ℚ),
      "사번" ∈ cols →
      dlookup r1 "사번" = some c → dlookup r2 "사번" = some c → notna c = true →
      getF r1 "활성화 지원금" = .ok a1 → getF r1 "총 모집업적\n(생,손보)" = .ok b1 →
      getF r1 "손보모집업적(①)" = .ok d1 → getF r1 "지급율(%)" = .ok f1 →
      getF r2 "활성화 지원금" = .ok a2 → getF r2 "총 모집업적\n(생,손보)" = .ok b2 →
      getF r2 "손보모집업적(①)" = .ok d2 → getF r2 "지급율(%)" = .ok f2 →
      ∃ e, dlookup (foldCaught (stepMgr cols) m [r1, r2]) (pyStr c) = some e
        ∧ dlookup e.additional_allowances "MGR상생" =
            some (.vdict [("금액", .cnum a2), ("총_모집업적", .cnum b2),
                          ("손보모집업적", .cnum d2), ("지급율", .cnum f2)]))
    ∧ (∀ (cols : List String) (m : EmpMap) (r1 r2 : Row) (c : Cell)
        (k1 : Int) (u1 v1 : ℚ) (k2 : Int) (u2 v2 : ℚ),
      "FC 사번" ∈ cols →
      dlookup r1 "FC 사번" = some c → dlookup r2 "FC 사번" = some c → notna c = true →
      getI r1 "회차" = .ok k1 → getF r1 "추가지급율" = .ok u1 → getF r1 "지급액" = .ok v1 →
      getI r2 "회차" = .ok k2 → getF r2 "추가지급율" = .ok u2 → getF r2 "지급액" = .ok v2 →
      dlookup m (pyStr c) = none →
      ∃ e, dlookup (foldCaught (stepRetention cols) m [r1, r2]) (pyStr c) = some e
        ∧ dlookup e.additional_allowances "13회차유지" =
            some (.vlist [mkRetention r1 k1 u1 v1, mkRetention r2 k2 u2 v2])) := by
  refine ⟨?_, ?_, ?_, ?_, ?_⟩
  · intro cols m r1 r2 c q1 q2 hcols hc1 hc2 hn hq1 hq2
    simp only [foldCaught, stepSijaek2_ok cols m r1 c q1 hcols hc1 hn hq1,
      stepSijaek2_ok cols _ r2 c q2 hcols hc2 hn hq2]
    exact dlookup_modify_setAllowance _ (pyStr c) _ _
  · intro cols m r1 r2 c q1 q2 hcols hc1 hc2 hn hq1 hq2
    simp only [foldCaught, stepSonboExt_ok cols m r1 c q1 hcols hc1 hn hq1,
      stepSonboExt_ok cols _ r2 c q2 hcols hc2 hn hq2]
    exact dlookup_modify_setAllowance _ (pyStr c) _ _
  · intro cols m r1 r2 c a1 b1 d1 a2 b2 d2 hcols hc1 hc2 hn ha1 hb1 hd1 ha2 hb2 hd2
    simp only [foldCaught, stepSinipIp_ok cols m r1 c a1 b1 d1 hcols hc1 hn ha1 hb1 hd1,
      stepSinipIp_ok cols _ r2 c a2 b2 d2 hcols hc2 hn ha2 hb2 hd2]
    exact dlookup_modify_setAllowance _ (pyStr c) _ _
  · intro cols m r1 r2 c a1 b1 d1 f1 a2 b2 d2 f2 hcols hc1 hc2 hn ha1 hb1 hd1 hf1 ha2 hb2 hd2 hf2
    simp only [foldCaught, stepMgr_ok cols m r1 c a1 b1 d1 f1 hcols hc1 hn ha1 hb1 hd1 hf1,
      stepMgr_ok cols _ r2 c a2 b2 d2 f2 hcols hc2 hn ha2 hb2 hd2 hf2]
    exact dlookup_modify_setAllowance _ (pyStr c) _ _
  · intro cols m r1 r2 c k1 u1 v1 k2 u2 v2 hcols hc1 hc2 hn hk1 hu1 hv1 hk2 hu2 hv2 hnone
    simp only [foldCaught, stepRetention_ok cols m r1 c k1 u1 v1 hcols hc1 hn hk1 hu1 hv1,
      stepRetention_ok cols _ r2 c k2 u2 v2 hcols hc2 hn hk2 hu2 hv2]
    have h0 : dlookup (ensure m (pyStr c)) (pyStr c) = some { sabon := pyStr c } := by
      rw [dlookup_ensure_self, hnone]
      rfl
    have h1 : dlookup
        (modifyEmp (ensure m (pyStr c)) (pyStr c) (appendRetention (mkRetention r1 k1 u1 v1)))
        (pyStr c) = some (appendRetention (mkRetention r1 k1 u1 v1) { sabon := pyStr c }) := by
      rw [dlookup_modifyEmp_self, h0]
      rfl
    rw [dlookup_modifyEmp_self, dlookup_ensure_self, h1]
    refine ⟨_, rfl, ?_⟩
    simp [appendRetention, dlookup, dset, dlookup_dset_self]

theorem c9_allowance_witness :
    (∃ e, dlookup (foldCaught (stepSijaek2 ["FC 사번"]) [] [c9SijaekRow1, c9SijaekRow2])
        (pyStr (Cell.cstr "9")) = some e
      ∧ dlookup e.additional_allowances "시책2_지사시책" =
          some (.vdict [("금액", .cnum 2), ("비고", getC c9SijaekRow2 "비고")]))
    ∧ (∃ e, dlookup (foldCaught (stepSonboExt ["FC 사번"]) [] [c9SijaekRow1, c9SijaekRow2])
        (pyStr (Cell.cstr "9")) = some e
      ∧ dlookup e.additional_allowances "손보EXT" =
          some (.vdict [("금액", .cnum 0), ("비고", getC c9SijaekRow2 "비고")]))
    ∧ (∃ e, dlookup (foldCaught (stepSinipIp ["FC 사번"]) [] [c9SijaekRow1, c9SijaekRow2])
        (pyStr (Cell.cstr "9")) = some e
      ∧ dlookup e.additional_allowances "신입IP수당" =
          some (.vdict [("금액", .cnum 2), ("모집업적", .cnum 0), ("지급대상액", .cnum 0)]))
    ∧ (∃ e, dlookup (foldCaught (stepMgr ["사번"]) [] [c9MgrRow, c9MgrRow])
        (pyStr (Cell.cstr "9")) = some e
      ∧ dlookup e.additional_allowances "MGR상생" =
          some (.vdict [("금액", .cnum 0), ("총_모집업적", .cnum 0),
                        ("손보모집업적", .cnum 0), ("지급율", .cnum 0)]))
    ∧ (∃ e, dlookup (foldCaught (stepRetention ["FC 사번"]) [] [c9RetRow1, c9RetRow2])
        (pyStr (Cell.cstr "9")) = some e
      ∧ dlookup e.additional_allowances "13회차유지" =
          some (.vlist [mkRetention c9RetRow1 0 0 3, mkRetention c9RetRow2 0 0 4])) :=
  ⟨c9_allowance_cardinality.1 ["FC 사번"] [] c9SijaekRow1 c9SijaekRow2 (Cell.cstr "9") 1 2
    (by decide) rfl rfl rfl rfl rfl,
   c9_allowance_cardinality.2.1 ["FC 사번"] [] c9SijaekRow1 c9SijaekRow2 (Cell.cstr "9") 0 0
    (by decide) rfl rfl rfl rfl rfl,
   c9_allowance_cardinality.2.2.1 ["FC 사번"] [] c9SijaekRow1 c9SijaekRow2 (Cell.cstr "9")
    1 0 0 2 0 0 (by decide) rfl rfl rfl rfl rfl rfl rfl rfl rfl,
   c9_allowance_cardinality.2.2.2.1 ["사번"] [] c9MgrRow c9MgrRow (Cell.cstr "9")
    0 0 0 0 0 0 0 0 (by decide) rfl rfl rfl rfl rfl rfl rfl rfl rfl rfl rfl,
   c9_allowance_cardinality.2.2.2.2 ["FC 사번"] [] c9RetRow1 c9RetRow2 (Cell.cstr "9")
    0 0 3 0 0 4 (by decide) rfl rfl rfl rfl rfl rfl rfl rfl rfl rfl⟩

end CombinedExcelToPinecone

namespace CombinedExcelToPinecone


theorem addDocGroup_inv : ∀ (gs : List (Value × List Doc)) (v : Value) (d : Doc),
    GroupInv gs → dlookup d.metadata "사번" = some v → GroupInv (addDocGroup gs v d) := by
  intro gs
  induction gs with
  | nil =>
      intro v d _ hd g hgmem x hx
      simp only [addDocGroup, List.mem_singleton] at hgmem
      subst hgmem
      simp only [List.mem_singleton] at hx
      subst hx
      exact hd
  | cons hd0 tl ih =>
      obtain ⟨k', ds⟩ := hd0
      intro v d hg hd g hgmem x hx
      by_cases hk : k' = v
      · subst hk
        rw [addDocGroup, if_pos rfl] at hgmem
        rcases List.mem_cons.mp hgmem with hgeq | hgmem2
        · subst hgeq
          rcases List.mem_append.mp hx with hx1 | hx2
          · exact hg (k', ds) (List.mem_cons_self _ _) x hx1
          · rw [List.mem_singleton] at hx2
            subst hx2
            exact hd
        · exact hg g (List.mem_cons_of_mem _ hgmem2) x hx
      · rw [addDocGroup, if_neg hk] at hgmem
        rcases List.mem_cons.mp hgmem with hgeq | hgmem2
        · subst hgeq
          exact hg (k', ds) (List.mem_cons_self _ _) x hx
        · exact ih v d (fun g' hg' x' hx' => hg g' (List.mem_cons_of_mem _ hg') x' hx') hd
            g hgmem2 x hx

theorem groupDocs_ok_aux (docs : List Doc) :
    ∀ acc : List (Value × List Doc),
      (∀ d ∈ docs, (dlookup d.metadata "사번").isSome = true) → GroupInv acc →
      ∃ gs, docs.foldlM (fun acc d =>
          match dlookup d.metadata "사번" with
          | none => Except.error UploadErr.keyErr
          | some v => .ok (addDocGroup acc v d)) acc = .ok gs ∧ GroupInv gs := by
  induction docs with
  | nil =>
      intro acc _ hinv
      exact ⟨acc, rfl, hinv⟩
  | cons d ds ih =>
      intro acc hall hinv
      rcases hl : dlookup d.metadata "사번" with _ | v
      · have := hall d (by simp)
        rw [hl] at this
        simp at this
      · obtain ⟨gs, hgs, hginv⟩ := ih (addDocGroup acc v d)
          (fun x hx => hall x (by simp [hx])) (addDocGroup_inv acc v d hinv hl)
        refine ⟨gs, ?_, hginv⟩
        rw [List.foldlM_cons, hl]
        simpa [Bind.bind, Except.bind] using hgs

theorem groupDocs_ok {docs : List Doc}
    (h : ∀ d ∈ docs, (dlookup d.metadata "사번").isSome = true) :
    ∃ gs, groupDocsByEmployee docs = .ok gs ∧ GroupInv gs :=
  groupDocs_ok_aux docs [] h (fun g hg => absurd hg (List.not_mem_nil g))

theorem chunkGo_mem {α : Type} (bs : Nat) :
    ∀ (fuel : Nat) (l : List α) (ch : List α), ch ∈ chunkGo bs fuel l → ∀ x ∈ ch, x ∈ l := by
  intro fuel
  induction fuel with
  | zero =>
      intro l ch hch
      simp [chunkGo] at hch
  | succ n ih =>
      intro l ch hch x hx
      cases l with
      | nil => simp [chunkGo] at hch
      | cons a as =>
          rw [chunkGo] at hch
          rcases List.mem_cons.mp hch with rfl | hrest
          · exact List.mem_of_mem_take hx
          · exact List.mem_of_mem_drop (ih _ ch hrest x hx)

theorem chunkList_mem {α : Type} {bs : Nat} {l : List α} {ch : List α}
    (h : ch ∈ chunkList bs l) : ∀ x ∈ ch, x ∈ l :=
  chunkGo_mem bs l.length l ch h

end CombinedExcelToPinecone

namespace CombinedExcelToPinecone


theorem buildVectors_eq_foldlM (emb : String → List ℚ) (sabon : Value) (batch : List Doc) :
    buildVectors emb sabon batch = batch.foldlM (buildStep emb sabon) [] := rfl

theorem buildStep_fold_cases (emb : String → List ℚ) (v : Value) :
    ∀ (batch : List Doc) (acc : List UpsertVector),
      (∀ d ∈ batch, dlookup d.metadata "사번" = some v) →
      (∃ vs, batch.foldlM (buildStep emb v) acc = .ok vs)
      ∨ batch.foldlM (buildStep emb v) acc = .error .keyErr := by
  intro batch
  induction batch with
  | nil =>
      intro acc _
      exact Or.inl ⟨acc, rfl⟩
  | cons d ds ih =>
      intro acc hall
      have hd := hall d (by simp)
      rcases hn : dlookup d.metadata "사원명" with _ | nv
      · right
        rw [List.foldlM_cons]
        simp [buildStep, Bind.bind, Except.bind, hd, hn]
      · have hstep : buildStep emb v acc d =
            .ok (acc ++ [{ id := d.id, values := emb d.text, metadata := vectorMeta d v nv }]) := by
          simp [buildStep, hd, hn]
        rcases ih (acc ++ [{ id := d.id, values := emb d.text, metadata := vectorMeta d v nv }])
            (fun x hx => hall x (by simp [hx])) with ⟨vs, hvs⟩ | herr
        · left
          refine ⟨vs, ?_⟩
          rw [List.foldlM_cons, hstep]
          simpa [Bind.bind, Except.bind] using hvs
        · right
          rw [List.foldlM_cons, hstep]
          simpa [Bind.bind, Except.bind] using herr

theorem buildVectors_cases {emb : String → List ℚ} {v : Value} {batch : List Doc}
    (h : ∀ d ∈ batch, dlookup d.metadata "사번" = some v) :
    (∃ vs, buildVectors emb v batch = .ok vs) ∨ buildVectors emb v batch = .error .keyErr := by
  rw [buildVectors_eq_foldlM]
  exact buildStep_fold_cases emb v batch [] h

end CombinedExcelToPinecone

namespace CombinedExcelToPinecone


theorem uploadDocuments_eq (emb : String → List ℚ) (bs : Nat) (docs : List Doc) :
    uploadDocuments emb bs docs =
      groupDocsByEmployee docs >>= fun gs => gs.foldlM (groupStep emb bs) [] := rfl

theorem chunkStep_fold_noIso (emb : String → List ℚ) (key : Value) (ns : String) :
    ∀ (chunks : List (List Doc)) (acc : List (String × List UpsertVector)),
      (∀ ch ∈ chunks, ∀ x ∈ ch, dlookup x.metadata "사번" = some key) →
      isIsolationError (chunks.foldlM (chunkStep emb key ns) acc) = false := by
  intro chunks
  induction chunks with
  | nil =>
      intro acc _
      rfl
  | cons ch chs ih =>
      intro acc hall
      rw [List.foldlM_cons]
      by_cases hlen : 2048 < ch.length
      · have hstep : chunkStep emb key ns acc ch = .ok acc := by
          simp [chunkStep, hlen]
        rw [hstep]
        simpa [Bind.bind, Except.bind] using ih acc (fun c hc => hall c (by simp [hc]))
      · rcases @buildVectors_cases emb key ch (hall ch (by simp)) with ⟨vs, hv⟩ | he
        · have hstep : chunkStep emb key ns acc ch = .ok (acc ++ [(ns, vs)]) := by
            simp [chunkStep, hlen, hv, Bind.bind, Except.bind, Pure.pure, Except.pure]
          rw [hstep]
          simpa [Bind.bind, Except.bind] using
            ih (acc ++ [(ns, vs)]) (fun c hc => hall c (by simp [hc]))
        · have hstep : chunkStep emb key ns acc ch = .error .keyErr := by
            simp [chunkStep, hlen, he, Bind.bind, Except.bind]
          rw [hstep]
          simp [Bind.bind, Except.bind, isIsolationError]

theorem groupStep_fold_noIso (emb : String → List ℚ) (bs : Nat) :
    ∀ (gs : List (Value × List Doc)) (acc : List (String × List UpsertVector)),
      GroupInv gs → isIsolationError (gs.foldlM (groupStep emb bs) acc) = false := by
  intro gs
  induction gs with
  | nil =>
      intro acc _
      rfl
  | cons g gs' ih =>
      intro acc hinv
      rw [List.foldlM_cons]
      by_cases hbs : bs = 0
      · have hstep : groupStep emb bs acc g = .error .valueErr := by
          simp [groupStep, hbs]
        rw [hstep]
        simp [Bind.bind, Except.bind, isIsolationError]
      · have hinner := chunkStep_fold_noIso emb g.1 ("employee_" ++ pyStrV g.1)
          (chunkList bs g.2) acc
          (fun ch hch x hx => hinv g (by simp) x (chunkList_mem hch x hx))
        have hstep_eq : groupStep emb bs acc g =
            (chunkList bs g.2).foldlM (chunkStep emb g.1 ("employee_" ++ pyStrV g.1)) acc := by
          simp [groupStep, hbs]
        rcases hres : (chunkList bs g.2).foldlM (chunkStep emb g.1 ("employee_" ++ pyStrV g.1)) acc
            with e | acc'
        · rw [hstep_eq, hres]
          rw [hres] at hinner
          simpa [Bind.bind, Except.bind] using hinner
        · rw [hstep_eq, hres]
          simp only [Bind.bind, Except.bind]
          exact ih acc' (fun g' h' x hx => hinv g' (by simp [h']) x hx)

/-- C10: because upload batches are grouped by each document's own
`metadata['사번']`, every document in the batch for employee key `s`
declares exactly `s`, so the isolation-mismatch error branch is
unreachable for any document list whose elements carry a `사번`
metadata field. -/
theorem c10_mismatch_unreachable (emb : String → List ℚ) (bs : Nat) (docs : List Doc)
    (h : ∀ d ∈ docs, (dlookup d.metadata "사번").isSome = true) :
    isIsolationError (uploadDocuments emb bs docs) = false := by
  obtain ⟨gs, hgs, hinv⟩ := groupDocs_ok h
  rw [uploadDocuments_eq, hgs]
  simp only [Bind.bind, Except.bind]
  exact groupStep_fold_noIso emb bs gs [] hinv

theorem c10_mismatch_witness :
    isIsolationError (uploadDocuments embZero 100 [docGoodA, docGoodB, docMismatch]) = false :=
  c10_mismatch_unreachable embZero 100 [docGoodA, docGoodB, docMismatch] (by decide)

end CombinedExcelToPinecone

namespace CombinedExcelToPinecone

/-- C1 amended: when a batch document's declared `사번` disagrees with
the batch's employee key, the vector-building loop raises the security
`ValueError`, which rejects the entire batch — no vectors at all are
produced, not even for well-formed documents before or after the
mismatched one — and, being uncaught, aborts the upload run instead of
continuing with the remaining documents. -/
theorem c1_amended_mismatch_error_aborts_run (emb : String → List ℚ) (sab : Value)
    (pre post : List Doc) (d : Doc) (v : Value)
    (hpre : ∀ d' ∈ pre, dlookup d'.metadata "사번" = some sab
      ∧ (dlookup d'.metadata "사원명").isSome = true)
    (hd : dlookup d.metadata "사번" = some v) (hne : v ≠ sab) :
    buildVectors emb sab (pre ++ d :: post) = .error (.isolationMismatch v sab) := by
  rw [buildVectors_eq_foldlM]
  suffices haux : ∀ (pre : List Doc) (acc : List UpsertVector),
      (∀ d' ∈ pre, dlookup d'.metadata "사번" = some sab
        ∧ (dlookup d'.metadata "사원명").isSome = true) →
      (pre ++ d :: post).foldlM (buildStep emb sab) acc = .error (.isolationMismatch v sab) by
    exact haux pre [] hpre
  intro pre
  induction pre with
  | nil =>
      intro acc _
      rw [List.nil_append, List.foldlM_cons]
      have hstep : buildStep emb sab acc d = .error (.isolationMismatch v sab) := by
        simp [buildStep, hd, hne]
      rw [hstep]
      simp [Bind.bind, Except.bind]
  | cons p ps ih =>
      intro acc hall
      obtain ⟨hp, hpn⟩ := hall p (by simp)
      rcases hn : dlookup p.metadata "사원명" with _ | nv
      · rw [hn] at hpn
        simp at hpn
      · have hstep : buildStep emb sab acc p =
            .ok (acc ++ [{ id := p.id, values := emb p.text, metadata := vectorMeta p sab nv }]) := by
          simp [buildStep, hp, hn]
        rw [List.cons_append, List.foldlM_cons, hstep]
        simpa [Bind.bind, Except.bind] using
          ih (acc ++ [{ id := p.id, values := emb p.text, metadata := vectorMeta p sab nv }])
            (fun x hx => hall x (by simp [hx]))

theorem c1_amended_witness :
    buildVectors embZero (Value.vcell (Cell.cstr "3")) ([] ++ docMismatch :: []) =
      .error (.isolationMismatch (Value.vcell (Cell.cstr "2")) (Value.vcell (Cell.cstr "3"))) :=
  c1_amended_mismatch_error_aborts_run embZero (Value.vcell (Cell.cstr "3")) [] [] docMismatch
    (Value.vcell (Cell.cstr "2")) (by simp) (by decide) (by decide)

/-- C1 refuted as stated: for employee `1`'s batch holding two
well-formed documents around one declaring employee `2`, the upload
does not reject only the offending document and continue — the
vector-building step returns the security error and yields no vectors
at all. -/
theorem c1_counterexample_mismatch_aborts :
    buildVectors embZero (Value.vcell (Cell.cstr "1")) [docGoodA, docMismatch, docGoodB] =
      .error (.isolationMismatch (Value.vcell (Cell.cstr "2")) (Value.vcell (Cell.cstr "1")))
    ∧ (buildVectors embZero (Value.vcell (Cell.cstr "1")) [docGoodA, docMismatch, docGoodB]).isOk
        = false :=
  ⟨rfl, rfl⟩

end CombinedExcelToPinecone

namespace CombinedExcelToPinecone

theorem sameAllow_refl (key : String) (e : Employee) : SameButAllowanceKey key e e :=
  ⟨rfl, rfl, rfl, rfl, rfl, rfl, rfl, rfl, fun _ _ => rfl⟩

theorem sameAllow_trans {key : String} {e1 e2 e3 : Employee}
    (h12 : SameButAllowanceKey key e1 e2) (h23 : SameButAllowanceKey key e2 e3) :
    SameButAllowanceKey key e1 e3 :=
  ⟨h23.1.trans h12.1, h23.2.1.trans h12.2.1, h23.2.2.1.trans h12.2.2.1,
   h23.2.2.2.1.trans h12.2.2.2.1, h23.2.2.2.2.1.trans h12.2.2.2.2.1,
   h23.2.2.2.2.2.1.trans h12.2.2.2.2.2.1, h23.2.2.2.2.2.2.1.trans h12.2.2.2.2.2.2.1,
   h23.2.2.2.2.2.2.2.1.trans h12.2.2.2.2.2.2.2.1,
   fun k hk => (h23.2.2.2.2.2.2.2.2 k hk).trans (h12.2.2.2.2.2.2.2.2 k hk)⟩

theorem presAllow_refl (key : String) (m : EmpMap) : PreservesExceptAllowance key m m :=
  fun _ e h => ⟨e, h, sameAllow_refl key e⟩

theorem presAllow_trans {key : String} {m1 m2 m3 : EmpMap}
    (h12 : PreservesExceptAllowance key m1 m2) (h23 : PreservesExceptAllowance key m2 m3) :
    PreservesExceptAllowance key m1 m3 := by
  intro s e h
  obtain ⟨e2, h2, s12⟩ := h12 s e h
  obtain ⟨e3, h3, s23⟩ := h23 s e2 h2
  exact ⟨e3, h3, sameAllow_trans s12 s23⟩

theorem presAllow_ensure (key : String) (m : EmpMap) (s : String) :
    PreservesExceptAllowance key m (ensure m s) :=
  fun _ e h => ⟨e, dlookup_ensure_of_some h, sameAllow_refl key e⟩

theorem presAllow_modify (key : String) (m : EmpMap) (s : String) (f : Employee → Employee)
    (hf : ∀ e, SameButAllowanceKey key e (f e)) :
    PreservesExceptAllowance key m (modifyEmp m s f) := by
  intro s' e h
  by_cases hs : s' = s
  · subst hs
    rw [dlookup_modifyEmp_self, h]
    exact ⟨f e, rfl, hf e⟩
  · rw [dlookup_modifyEmp_ne m f hs]
    exact ⟨e, h, sameAllow_refl key e⟩

theorem sameAllow_appendRetention (ret : List (String × Cell)) (e : Employee) :
    SameButAllowanceKey "13회차유지" e (appendRetention ret e) :=
  ⟨rfl, rfl, rfl, rfl, rfl, rfl, rfl, rfl,
   fun _ hk => dlookup_dset_ne _ _ hk⟩

/-- A caught-block row loop preserves any reflexive transitive relation
that each step establishes, whether it ends normally or at a raise. -/
theorem pres_foldCaught {R : EmpMap → EmpMap → Prop} (hrefl : ∀ m, R m m)
    (htrans : ∀ {a b c : EmpMap}, R a b → R b c → R a c)
    (f : EmpMap → Row → Except EmpMap EmpMap)
    (hstep : ∀ m row, (∀ m', f m row = .ok m' → R m m') ∧ (∀ m', f m row = .error m' → R m m')) :
    ∀ (rows : List Row) (m : EmpMap), R m (foldCaught f m rows) := by
  intro rows
  induction rows with
  | nil =>
      intro m
      exact hrefl m
  | cons r rs ih =>
      intro m
      rw [foldCaught]
      rcases hr : f m r with m' | m'
      · exact (hstep m r).2 m' hr
      · exact htrans ((hstep m r).1 m' hr) (ih m')

theorem stepRetention_pres (cols : List String) (m : EmpMap) (row : Row) :
    (∀ m', stepRetention cols m row = .ok m' → PreservesExceptAllowance "13회차유지" m m')
    ∧ (∀ m', stepRetention cols m row = .error m' → PreservesExceptAllowance "13회차유지" m m') := by
  unfold stepRetention
  by_cases hg : (cols.contains "FC 사번" && notna (getC row "FC 사번")) = true
  · rw [if_pos hg]
    rcases hl : dlookup row "FC 사번" with _ | c
    · constructor
      · intro m' h
        exact Except.noConfusion h
      · intro m' h
        injection h with h
        subst h
        exact presAllow_refl _ m
    · rcases hco : retNums row with u | t
      · constructor
        · intro m' h
          exact Except.noConfusion h
        · intro m' h
          injection h with h
          subst h
          exact presAllow_ensure _ m _
      · obtain ⟨hc, rate, amt⟩ := t
        constructor
        · intro m' h
          injection h with h
          subst h
          exact presAllow_trans (presAllow_ensure _ m _)
            (presAllow_modify _ _ _ _ (sameAllow_appendRetention _))
        · intro m' h
          exact Except.noConfusion h
  · rw [if_neg hg]
    constructor
    · intro m' h
      injection h with h
      subst h
      exact presAllow_refl _ m
    · intro m' h
      exact Except.noConfusion h

theorem presAllow_blockRetention (src : Except Unit Sheet) (m : EmpMap) :
    PreservesExceptAllowance "13회차유지" m (blockRetention src m) := by
  unfold blockRetention
  exact pres_foldCaught (presAllow_refl "13회차유지")
    (fun h12 h23 => presAllow_trans h12 h23)
    (stepRetention (safeSheet src).cols)
    (fun m0 row => stepRetention_pres (safeSheet src).cols m0 row)
    (safeSheet src).rows m

theorem sameClaw_refl (e : Employee) : SameButClawbackAppend e e :=
  ⟨rfl, rfl, rfl, rfl, rfl, rfl, rfl, rfl, [], (List.append_nil _).symm⟩

theorem sameClaw_trans {e1 e2 e3 : Employee}
    (h12 : SameButClawbackAppend e1 e2) (h23 : SameButClawbackAppend e2 e3) :
    SameButClawbackAppend e1 e3 := by
  obtain ⟨a1, a2, a3, a4, a5, a6, a7, a8, x1, hx1⟩ := h12
  obtain ⟨b1, b2, b3, b4, b5, b6, b7, b8, x2, hx2⟩ := h23
  refine ⟨b1.trans a1, b2.trans a2, b3.trans a3, b4.trans a4, b5.trans a5,
    b6.trans a6, b7.trans a7, b8.trans a8, x1 ++ x2, ?_⟩
  rw [hx2, hx1, List.append_assoc]

theorem presClaw_refl (m : EmpMap) : PreservesExceptClawback m m :=
  fun _ e h => ⟨e, h, sameClaw_refl e⟩

theorem presClaw_trans {m1 m2 m3 : EmpMap}
    (h12 : PreservesExceptClawback m1 m2) (h23 : PreservesExceptClawback m2 m3) :
    PreservesExceptClawback m1 m3 := by
  intro s e h
  obtain ⟨e2, h2, s12⟩ := h12 s e h
  obtain ⟨e3, h3, s23⟩ := h23 s e2 h2
  exact ⟨e3, h3, sameClaw_trans s12 s23⟩

theorem presClaw_ensure (m : EmpMap) (s : String) :
    PreservesExceptClawback m (ensure m s) :=
  fun _ e h => ⟨e, dlookup_ensure_of_some h, sameClaw_refl e⟩

theorem presClaw_modify (m : EmpMap) (s : String) (c : List (String × Cell)) :
    PreservesExceptClawback m (modifyEmp m s (appendClawback c)) := by
  intro s' e h
  by_cases hs : s' = s
  · subst hs
    rw [dlookup_modifyEmp_self, h]
    exact ⟨appendClawback c e, rfl, rfl, rfl, rfl, rfl, rfl, rfl, rfl, rfl, [c], rfl⟩
  · rw [dlookup_modifyEmp_ne m _ hs]
    exact ⟨e, h, sameClaw_refl e⟩

theorem stepHwansuSijaek2_pres (cols : List String) (m : EmpMap) (row : Row) :
    (∀ m', stepHwansuSijaek2 cols m row = .ok m' → PreservesExceptClawback m m')
    ∧ (∀ m', stepHwansuSijaek2 cols m row = .error m' → PreservesExceptClawback m m') := by
  unfold stepHwansuSijaek2
  by_cases hg : (cols.contains "사번" && notna (getC row "사번")) = true
  · rw [if_pos hg]
    rcases hl : dlookup row "사번" with _ | c
    · constructor
      · intro m' h
        exact Except.noConfusion h
      · intro m' h
        injection h with h
        subst h
        exact presClaw_refl m
    · rcases hco : hwansuSijaek2Nums row with u | t
      · constructor
        · intro m' h
          exact Except.noConfusion h
        · intro m' h
          injection h with h
          subst h
          exact presClaw_ensure m _
      · obtain ⟨ini, chg, amt⟩ := t
        constructor
        · intro m' h
          injection h with h
          subst h
          exact presClaw_trans (presClaw_ensure m _) (presClaw_modify _ _ _)
        · intro m' h
          exact Except.noConfusion h
  · rw [if_neg hg]
    constructor
    · intro m' h
      injection h with h
      subst h
      exact presClaw_refl m
    · intro m' h
      exact Except.noConfusion h

theorem presClaw_blockHwansuSijaek2 (src : Except Unit Sheet) (m : EmpMap) :
    PreservesExceptClawback m (blockHwansuSijaek2 src m) := by
  unfold blockHwansuSijaek2
  exact pres_foldCaught presClaw_refl (fun h12 h23 => presClaw_trans h12 h23)
    (stepHwansuSijaek2 (safeSheet src).cols)
    (fun m0 row => stepHwansuSijaek2_pres (safeSheet src).cols m0 row)
    (safeSheet src).rows m

/-- C3 amended: a failing read of an optional allowance/clawback source
is caught inside the reading helper and leaves the record set entirely
unchanged (the category is absent); a malformed row in mid-source stops
that source at the offending row, so contributions of earlier rows
remain and the category can be left partially populated, but records'
data from all other categories is never modified and aggregation
completes. -/
theorem c3_amended_optional_source_isolation :
    (∀ m : EmpMap, blockSijaek2 (.error ()) m = m ∧ blockSonboExt (.error ()) m = m
      ∧ blockSinipIp (.error ()) m = m ∧ blockMgr (.error ()) m = m
      ∧ blockRetention (.error ()) m = m ∧ blockHwansuSijaek2 (.error ()) m = m
      ∧ blockHwansuSogaebi (.error ()) m = m ∧ blockHwansuGyoyukbi (.error ()) m = m)
    ∧ (∀ (src : Except Unit Sheet) (m : EmpMap),
        PreservesExceptAllowance "13회차유지" m (blockRetention src m))
    ∧ (∀ (src : Except Unit Sheet) (m : EmpMap),
        PreservesExceptClawback m (blockHwansuSijaek2 src m)) :=
  ⟨fun _ => ⟨rfl, rfl, rfl, rfl, rfl, rfl, rfl, rfl⟩,
   presAllow_blockRetention, presClaw_blockHwansuSijaek2⟩

theorem c3_amended_witness :
    blockRetention (.error ()) c3PriorMap = c3PriorMap
    ∧ (∃ e', dlookup (blockRetention (.ok c3BadSheet) c3PriorMap) "x" = some e'
        ∧ SameButAllowanceKey "13회차유지" c3PriorEmp e')
    ∧ (∃ e', dlookup (blockHwansuSijaek2 (.ok c3BadSheet) c3PriorMap) "x" = some e'
        ∧ SameButClawbackAppend c3PriorEmp e') :=
  ⟨(c3_amended_optional_source_isolation.1 c3PriorMap).2.2.2.2.1,
   c3_amended_optional_source_isolation.2.1 (.ok c3BadSheet) c3PriorMap "x" c3PriorEmp rfl,
   c3_amended_optional_source_isolation.2.2 (.ok c3BadSheet) c3PriorMap "x" c3PriorEmp rfl⟩

/-- C3 refuted as stated: a retention source whose second row has a
malformed amount is caught mid-source, yet the first row's contribution
survives — the failed source's category is present on the first
employee (and the failing row even registered a fresh empty record), so
the category is partially populated rather than entirely absent. -/
theorem c3_counterexample_partial_category :
    blockRetention (.ok c3BadSheet) [] =
      [("1", { sabon := "1",
               additional_allowances := [("13회차유지", .vlist [mkRetention c3Row1 0 0 100])] }),
       ("2", { sabon := "2" })]
    ∧ (blockRetention (.ok c3BadSheet) []).any
        (fun p => dmem p.2.additional_allowances "13회차유지") = true :=
  ⟨rfl, rfl⟩

end CombinedExcelToPinecone
